import Mathlib

/-!
# Notebook: persistence gateway and theme provider

A shallow embedding of `src/io/file_operations.c`, `src/theme/theme_manager.c`,
`src/clipboard/clipboard_operations.c` and the theme observer of `src/ui/main_window.c`.

* Pointers that the code tests against `NULL` are `Option` values (`none` is `NULL`).
* The C library is an environment: the file system is a map from paths to the byte
  sequences of the regular files, the files the system serves (devices, procfs entries,
  directories) come with the environment, and every library call whose failure the
  code tests for takes its outcome from an `Env` record, so that each theorem
  quantified over `Env` covers every combination of those failures.
* Every call that leaves the embedded function (C library, Document module, callback)
  is recorded, in program order, in a list of `Call` values.
-/

namespace Notebook

/-! ## Bytes, C strings and files -/

/-- One `char` of storage. -/
abbrev Byte := Fin 256

/-- The value of a NUL-terminated `const char*`: the bytes in front of the terminator.
A C string therefore never holds the byte 0. -/
abbrev CStr := {l : List Byte // (0 : Byte) ∉ l}

/-- The C string that a `char*` into `buffer` denotes: everything in front of the first
NUL byte of the buffer. This is what any callee taking a `const char*` can see. -/
def CStr.ofBuffer (buffer : List Byte) : CStr :=
  ⟨buffer.takeWhile (fun b => b ≠ 0), by
    intro h
    have h1 := List.mem_takeWhile_imp h
    simp at h1⟩

/-- Models `strlen`. -/
def strlen (s : CStr) : Nat := s.val.length

/-- The regular files of the file system: the bytes stored at each path, `none` where no
file exists. -/
abbrev FileSystem := CStr → Option (List Byte)

/-- The `errno` value `ENOENT`. -/
def ENOENT : Nat := 2

/-- The `errno` value `EACCES`. -/
def EACCES : Nat := 13

/-- A file that is served by the system rather than stored in the file system: a device
such as `/dev/null`, a procfs entry, a directory. Reads deliver `data`; seeking to the end
reports the offset `size`, a `long` that need not be the number of bytes a read delivers
(0 for a procfs entry or a device, `LONG_MAX` for a directory, negative where the stream
cannot seek); bytes written to it are consumed and not stored. -/
structure SpecialFile where
  data : List Byte
  size : Int
deriving DecidableEq

/-- Outcomes of the calls that can fail for reasons outside the program, and the files the
system serves. Each field is consulted only if the program reaches the call. -/
structure Env where
  /-- the special file at a path, consulted where the file system holds no regular file -/
  special : CStr → Option SpecialFile
  /-- when `some e`, `fopen` fails and sets `errno` to `e` -/
  fopen_errno : Option Nat
  /-- `ftell` fails and returns `-1` -/
  ftell_fails : Bool
  /-- `malloc` returns `NULL` -/
  malloc_fails : Bool
  /-- when `some k`, `fread` delivers at most `k` bytes -/
  fread_short : Option Nat
  /-- when `some k`, `fwrite` accepts at most `k` bytes -/
  fwrite_short : Option Nat
  /-- `fclose` fails (its flush does not complete) -/
  fclose_fails : Bool
  /-- how many of the accepted bytes reach the file when `fclose` fails -/
  flushed : Nat
  /-- the allocation inside `document_set_content` fails -/
  set_content_fails : Bool
  /-- the allocation inside `document_set_file_path` fails -/
  set_file_path_fails : Bool

/-- The environment in which no library call fails. -/
def Env.ok : Env :=
  { special := fun _ => none, fopen_errno := none, ftell_fails := false, malloc_fails := false, fread_short := none,
    fwrite_short := none, fclose_fails := false, flushed := 0,
    set_content_fails := false, set_file_path_fails := false }

/-- An open stream: the bytes a read delivers, the file position, and the offset the
system reports for the end of the file. -/
structure FILE where
  data : List Byte
  pos : Int
  size : Int

/-- Whether `path` names a special file: the file system holds no regular file there and
the system serves one. -/
def names_special (env : Env) (fs : FileSystem) (path : CStr) : Bool :=
  (fs path).isNone && (env.special path).isSome

/-- Models `fopen(path, "rb")`: fails with the environment's `errno`, fails with `ENOENT`
when neither a regular nor a special file exists at `path`, and otherwise gives a stream
positioned at the start. For a regular file the end of the stream is at its length. -/
def fopen_rb (env : Env) (fs : FileSystem) (path : CStr) : Except Nat FILE :=
  match env.fopen_errno with
  | some e => .error e
  | none =>
    match fs path with
    | some bytes => .ok { data := bytes, pos := 0, size := bytes.length }
    | none =>
      match env.special path with
      | some sp => .ok { data := sp.data, pos := 0, size := sp.size }
      | none => .error ENOENT

/-- Models `fopen(path, "wb")`: fails with the environment's `errno` and leaves the file
system as it is; or else opens the special file at `path`, which stores nothing; or else
creates the regular file, or truncates it to zero length if it exists. -/
def fopen_wb (env : Env) (fs : FileSystem) (path : CStr) : Except Nat FileSystem :=
  match env.fopen_errno with
  | some e => .error e
  | none =>
    if names_special env fs path then .ok fs
    else .ok (Function.update fs path (some []))

/-- Models `fseek(file, 0, SEEK_END)`, whose result the code does not test. -/
def fseek_end (file : FILE) : FILE := { file with pos := file.size }

/-- Models `fseek(file, 0, SEEK_SET)`, whose result the code does not test. -/
def fseek_set (file : FILE) : FILE := { file with pos := 0 }

/-- Models `ftell`: the file position as the system reports it, or `-1` on failure. -/
def ftell (env : Env) (file : FILE) : Int :=
  if env.ftell_fails then -1 else file.pos

/-- The largest object size, `PTRDIFF_MAX`, on the 64-bit platforms the program builds
for. -/
def PTRDIFF_MAX : Int := 2 ^ 63 - 1

/-- The argument `file_size + 1` of `malloc` as a `size_t`: the sum taken in a 64-bit
`long`, where it wraps at `LONG_MAX`, and converted. -/
def malloc_request (file_size : Int) : Int := (file_size + 1) % 2 ^ 64

/-- Models `malloc(size) != NULL`: the allocation fails when the environment says so and
for every request above `PTRDIFF_MAX`. -/
def malloc (env : Env) (size : Int) : Bool :=
  !env.malloc_fails && decide (size ≤ PTRDIFF_MAX)

/-- Models `fread(buffer, 1, n, file)`: the bytes delivered, taken from the file position
on; fewer than `n` at the end of the data or when the environment cuts the read short. -/
def fread (env : Env) (file : FILE) (n : Nat) : List Byte :=
  match env.fread_short with
  | none => (file.data.drop file.pos.toNat).take n
  | some k => ((file.data.drop file.pos.toNat).take n).take k

/-- Models `fwrite(content, 1, n, file)`: the number of bytes the stream accepts. -/
def fwrite (env : Env) (n : Nat) : Nat :=
  match env.fwrite_short with
  | none => n
  | some k => min k n

/-- Models `fclose` on a stream opened for writing at `path` that accepted the bytes
`pending`. A special file stores nothing. A regular file holds `pending` on success and
only the first `env.flushed` of them on failure. The first component is
`fclose(file) == 0`. -/
def fclose_wb (env : Env) (fs : FileSystem) (path : CStr) (pending : List Byte) :
    Bool × FileSystem :=
  if names_special env fs path then (!env.fclose_fails, fs)
  else if env.fclose_fails then
    (false, Function.update fs path (some (pending.take env.flushed)))
  else (true, Function.update fs path (some pending))

/-! ## Document -/

/-- Modelled from the spec: `core/document.h` and its implementation are not among the
sources. A Document owns its content, an optional storage path and a modified flag.
Content and path are C strings (the gateway passes them as `const char*` and measures the
content with `strlen`); `none` is what `document_get_content` / `document_get_file_path`
hand out when there is nothing to hand out (`NULL`). -/
structure Document where
  content : Option CStr
  file_path : Option CStr
  modified : Bool
deriving DecidableEq

/-- Modelled from the spec: `document_set_content` is not among the sources. It replaces
the content and marks the Document modified; it fails only on allocation failure, and a
failure leaves the prior state intact. The first component is the `bool` it returns. -/
def document_set_content (alloc_fails : Bool) (doc : Document) (content : CStr) :
    Bool × Document :=
  if alloc_fails then (false, doc)
  else (true, { doc with content := some content, modified := true })

/-- Modelled from the spec: `document_set_file_path` is not among the sources. It replaces
the path; it fails only on allocation failure, and a failure leaves the prior state
intact. The first component is the `bool` it returns. -/
def document_set_file_path (alloc_fails : Bool) (doc : Document) (path : CStr) :
    Bool × Document :=
  if alloc_fails then (false, doc)
  else (true, { doc with file_path := some path })

/-- Modelled from the spec: `document_mark_saved` is not among the sources. It sets
modified to false unconditionally. -/
def document_mark_saved (doc : Document) : Document := { doc with modified := false }

/-- Modelled from the spec: `document_get_content` is not among the sources. A pure read
of the stored content. -/
def document_get_content (doc : Document) : Option CStr := doc.content

/-! ## Calls leaving the gateway -/

/-- The `mode` argument of `fopen`. -/
inductive OpenMode where
  | rb
  | wb
deriving DecidableEq

/-- One call made by the gateway, with its observed outcome. -/
inductive Call where
  /-- `fopen(path, mode)`; `errno` is `none` when the stream was opened -/
  | fopen (path : CStr) (mode : OpenMode) (errno : Option Nat)
  /-- `fseek(file, 0, SEEK_END)` -/
  | fseek_end
  /-- `fseek(file, 0, SEEK_SET)` -/
  | fseek_set
  /-- `ftell(file)` and the value it returned -/
  | ftell (result : Int)
  /-- `malloc(size)`; `ok` is false when it returned `NULL` -/
  | malloc (size : Int) (ok : Bool)
  /-- `fread(buffer, 1, count, file)` and the count it returned -/
  | fread (count : Nat) (got : Nat)
  /-- `fwrite(content, 1, count, file)` and the count it returned -/
  | fwrite (count : Nat) (put : Nat)
  /-- `fclose(file)`; `ok` is `fclose(file) == 0` -/
  | fclose (ok : Bool)
  /-- `document_get_content(doc)` -/
  | document_get_content
  /-- `document_set_content(doc, text)` and the `bool` it returned -/
  | document_set_content (text : CStr) (ok : Bool)
  /-- `document_set_file_path(doc, path)` and the `bool` it returned -/
  | document_set_file_path (path : CStr) (ok : Bool)
  /-- `document_mark_saved(doc)` -/
  | document_mark_saved
deriving DecidableEq

/-! ## Persistence gateway (`src/io/file_operations.c`) -/

/-- Result codes for file operations (`include/io/file_operations.h`). -/
inductive FileOperationResult where
  | FILE_OP_SUCCESS
  | FILE_OP_ERROR_OPEN
  | FILE_OP_ERROR_READ
  | FILE_OP_ERROR_WRITE
  | FILE_OP_ERROR_MEMORY
  | FILE_OP_ERROR_INVALID_PATH
  | FILE_OP_ERROR_PERMISSION
deriving DecidableEq

open FileOperationResult

/-- What `file_operations_read` leaves behind: the code it returns, the Document behind
the `doc` pointer after the call, and the calls it made. -/
structure ReadOutcome where
  result : FileOperationResult
  doc : Option Document
  calls : List Call

/-- What `file_operations_write` leaves behind: the code it returns, the file system and
the Document behind the `doc` pointer after the call, and the calls it made. -/
structure WriteOutcome where
  result : FileOperationResult
  fs : FileSystem
  doc : Option Document
  calls : List Call

/-- Embeds `file_operations_read` (file_operations.c, lines 23-79). -/
def file_operations_read (env : Env) (fs : FileSystem) (path : Option CStr)
    (doc : Option Document) : ReadOutcome :=
  match path, doc with
  | some p, some d =>
    match fopen_rb env fs p with
    | .error errno =>
      let t0 := [Call.fopen p .rb (some errno)]
      if errno = EACCES then ⟨FILE_OP_ERROR_PERMISSION, some d, t0⟩
      else ⟨FILE_OP_ERROR_OPEN, some d, t0⟩
    | .ok file =>
      -- Get file size
      let file := fseek_end file
      let file_size : Int := ftell env file
      let file := fseek_set file
      let t1 := [Call.fopen p .rb none, Call.fseek_end, Call.ftell file_size, Call.fseek_set]
      if file_size < 0 then
        ⟨FILE_OP_ERROR_READ, some d, t1 ++ [Call.fclose (!env.fclose_fails)]⟩
      -- Allocate buffer
      else if malloc env (malloc_request file_size) = false then
        ⟨FILE_OP_ERROR_MEMORY, some d, t1 ++ [Call.malloc (malloc_request file_size) false,
          Call.fclose (!env.fclose_fails)]⟩
      else
        -- Read file content
        let data := fread env file file_size.toNat
        let bytes_read := data.length
        let t2 := t1 ++ [Call.malloc (malloc_request file_size) true,
                         Call.fread file_size.toNat bytes_read,
                         Call.fclose (!env.fclose_fails)]
        if bytes_read ≠ file_size.toNat then
          ⟨FILE_OP_ERROR_READ, some d, t2⟩
        else
          let buffer := data ++ [0]
          -- Update document
          let text := CStr.ofBuffer buffer
          match document_set_content env.set_content_fails d text with
          | (false, d1) =>
            ⟨FILE_OP_ERROR_MEMORY, some d1, t2 ++ [Call.document_set_content text false]⟩
          | (true, d1) =>
            match document_set_file_path env.set_file_path_fails d1 p with
            | (false, d2) =>
              ⟨FILE_OP_ERROR_MEMORY, some d2,
                t2 ++ [Call.document_set_content text true, Call.document_set_file_path p false]⟩
            | (true, d2) =>
              ⟨FILE_OP_SUCCESS, some (document_mark_saved d2),
                t2 ++ [Call.document_set_content text true, Call.document_set_file_path p true,
                       Call.document_mark_saved]⟩
  | _, _ => ⟨FILE_OP_ERROR_INVALID_PATH, doc, []⟩

/-- Embeds `file_operations_write` (file_operations.c, lines 81-112). The Document is
reached through a `const Document*` and only read. -/
def file_operations_write (env : Env) (fs : FileSystem) (path : Option CStr)
    (doc : Option Document) : WriteOutcome :=
  match path, doc with
  | some p, some d =>
    match document_get_content d with
    | none => ⟨FILE_OP_ERROR_MEMORY, fs, some d, [Call.document_get_content]⟩
    | some content =>
      match fopen_wb env fs p with
      | .error errno =>
        let t0 := [Call.document_get_content, Call.fopen p .wb (some errno)]
        if errno = EACCES then ⟨FILE_OP_ERROR_PERMISSION, fs, some d, t0⟩
        else ⟨FILE_OP_ERROR_OPEN, fs, some d, t0⟩
      | .ok fs1 =>
        let content_len := strlen content
        let bytes_written := fwrite env content_len
        let closed := fclose_wb env fs1 p (content.val.take bytes_written)
        let t1 := [Call.document_get_content, Call.fopen p .wb none,
                   Call.fwrite content_len bytes_written, Call.fclose closed.1]
        if bytes_written ≠ content_len then
          ⟨FILE_OP_ERROR_WRITE, closed.2, some d, t1⟩
        else if closed.1 = false then
          ⟨FILE_OP_ERROR_WRITE, closed.2, some d, t1⟩
        else
          ⟨FILE_OP_SUCCESS, closed.2, some d, t1⟩
  | _, _ => ⟨FILE_OP_ERROR_INVALID_PATH, fs, doc, []⟩

/-! ### Concrete data used in the examples -/

/-- The path `"a"`. -/
def path_a : CStr := ⟨[97], by decide⟩

/-- The C string `"old"`. -/
def text_old : CStr := ⟨[111, 108, 100], by decide⟩

/-- The C string `"new"`. -/
def text_new : CStr := ⟨[110, 101, 119], by decide⟩

/-- A file system whose only file is `"a"`, holding the bytes of `"new"`. -/
def fs_new : FileSystem := fun p => if p = path_a then some [110, 101, 119] else none

/-- A modified Document holding `"old"`, stored at no path. -/
def doc_old : Document := { content := some text_old, file_path := none, modified := true }

/-! ### The decision orders as the specification words them -/

/-- An `fopen` that failed with an access-denied error. -/
def Call.open_denied : Call → Bool
  | .fopen _ _ (some e) => e == EACCES
  | _ => false

/-- An `fopen` that failed, for whatever reason. -/
def Call.open_failed : Call → Bool
  | .fopen _ _ (some _) => true
  | _ => false

/-- An `fwrite` that accepted fewer bytes than it was given. -/
def Call.short_write : Call → Bool
  | .fwrite count put => decide (put < count)
  | _ => false

/-- An `fclose` that failed. -/
def Call.close_failed : Call → Bool
  | .fclose ok => !ok
  | _ => false

/-- The result of a read as the claim orders the checks, each condition taken from the
environment of the call: InvalidPath; then PermissionDenied / OpenError; then ReadError
when the size is not determined or fewer bytes than the size are read; then OutOfMemory
when the buffer or the Document's copy of content or path is not allocated; then
Success. -/
def read_result_claimed (env : Env) (fs : FileSystem) (path : Option CStr)
    (doc : Option Document) : FileOperationResult :=
  match path, doc with
  | some p, some _ =>
    match fopen_rb env fs p with
    | .error errno =>
      if errno = EACCES then FILE_OP_ERROR_PERMISSION else FILE_OP_ERROR_OPEN
    | .ok file =>
      let file_size := ftell env (fseek_end file)
      if file_size < 0
          ∨ (fread env (fseek_set (fseek_end file)) file_size.toNat).length
              < file_size.toNat then
        FILE_OP_ERROR_READ
      else if malloc env (malloc_request file_size) = false
          ∨ env.set_content_fails = true ∨ env.set_file_path_fails = true then
        FILE_OP_ERROR_MEMORY
      else FILE_OP_SUCCESS
  | _, _ => FILE_OP_ERROR_INVALID_PATH

/-- The result of a read with the checks in the order of the amended claim, each condition
taken from the environment of the call: InvalidPath; then PermissionDenied / OpenError;
then ReadError when the size is not determined; then OutOfMemory when the buffer is not
allocated; then ReadError when fewer bytes than the size are read; then OutOfMemory when
the Document's copy of the content, and then of the path, is not allocated; then
Success. -/
def read_result_in_order (env : Env) (fs : FileSystem) (path : Option CStr)
    (doc : Option Document) : FileOperationResult :=
  match path, doc with
  | some p, some _ =>
    match fopen_rb env fs p with
    | .error errno =>
      if errno = EACCES then FILE_OP_ERROR_PERMISSION else FILE_OP_ERROR_OPEN
    | .ok file =>
      let file_size := ftell env (fseek_end file)
      if file_size < 0 then FILE_OP_ERROR_READ
      else if malloc env (malloc_request file_size) = false then FILE_OP_ERROR_MEMORY
      else if (fread env (fseek_set (fseek_end file)) file_size.toNat).length
          < file_size.toNat then
        FILE_OP_ERROR_READ
      else if env.set_content_fails = true then FILE_OP_ERROR_MEMORY
      else if env.set_file_path_fails = true then FILE_OP_ERROR_MEMORY
      else FILE_OP_SUCCESS
  | _, _ => FILE_OP_ERROR_INVALID_PATH

/-- Available theme types (`include/theme/theme_manager.h`). -/
inductive ThemeType where
  | THEME_DARK
  | THEME_LIGHT
deriving DecidableEq

open ThemeType

/-- The `struct ThemeManager`. The callback is a function pointer, `none` when `NULL`,
otherwise the identity of the registered function; `user_data` is the opaque `void*`
(0 for `NULL`). -/
structure ThemeManager where
  current_theme : ThemeType
  callback : Option Nat
  user_data : Nat
deriving DecidableEq

/-- One invocation `callback(theme, user_data)`, together with the manager as the callee
finds it at the time of the call. -/
structure Notification where
  callback : Nat
  theme : ThemeType
  user_data : Nat
  seen : ThemeManager
deriving DecidableEq

/-- Embeds `theme_manager_create` (theme_manager.c, lines 96-107); `malloc_fails` is the
outcome of its allocation. -/
def theme_manager_create (malloc_fails : Bool) (default_theme : ThemeType) :
    Option ThemeManager :=
  if malloc_fails then none
  else some { current_theme := default_theme, callback := none, user_data := 0 }

/-- Embeds `theme_manager_get_current` (theme_manager.c, lines 117-123). -/
def theme_manager_get_current (manager : Option ThemeManager) : ThemeType :=
  match manager with
  | none => THEME_DARK
  | some m => m.current_theme

/-- Embeds `theme_manager_set_theme` (theme_manager.c, lines 125-137): the manager after
the call and the callback invocations made during it, in order. -/
def theme_manager_set_theme (manager : Option ThemeManager) (theme : ThemeType) :
    Option ThemeManager × List Notification :=
  match manager with
  | none => (none, [])
  | some m =>
    if m.current_theme ≠ theme then
      let m1 := { m with current_theme := theme }
      match m1.callback with
      | some cb => (some m1, [⟨cb, theme, m1.user_data, m1⟩])
      | none => (some m1, [])
    else (some m, [])

/-- Embeds `theme_manager_toggle` (theme_manager.c, lines 139-149). -/
def theme_manager_toggle (manager : Option ThemeManager) :
    Option ThemeManager × List Notification :=
  match manager with
  | none => (none, [])
  | some m =>
    let new_theme := if m.current_theme = THEME_DARK then THEME_LIGHT else THEME_DARK
    theme_manager_set_theme (some m) new_theme

/-- Embeds `theme_manager_register_callback` (theme_manager.c, lines 161-170): the manager
after the call and the callback invocations made during it (there is no call in its
body). -/
def theme_manager_register_callback (manager : Option ThemeManager) (callback : Option Nat)
    (user_data : Nat) : Option ThemeManager × List Notification :=
  match manager with
  | none => (none, [])
  | some m => (some { m with callback := callback, user_data := user_data }, [])

/-- Theme color configuration (`include/theme/theme_manager.h`). -/
structure ThemeColors where
  background : String
  foreground : String
  selection_bg : String
  selection_fg : String
  cursor : String
deriving DecidableEq

/-- Dark theme colors (theme_manager.c, lines 8-14). -/
def dark_theme : ThemeColors :=
  { background := "#1e1e1e",
    foreground := "#d4d4d4",
    selection_bg := "#264f78",
    selection_fg := "#ffffff",
    cursor := "#aeafad" }

/-- Light theme colors (theme_manager.c, lines 19-25). -/
def light_theme : ThemeColors :=
  { background := "#ffffff",
    foreground := "#000000",
    selection_bg := "#add6ff",
    selection_fg := "#000000",
    cursor := "#000000" }

/-- Dark theme CSS (theme_manager.c, lines 30-55): the adjacent string literals of the
source, joined. -/
def dark_theme_css : String :=
  String.join [
    "textview \x7b",
    "  background-color: #1e1e1e;",
    "  color: #d4d4d4;",
    "  font-family: monospace;",
    "  font-size: 11pt;",
    "\x7d",
    "textview text \x7b",
    "  background-color: #1e1e1e;",
    "  color: #d4d4d4;",
    "\x7d",
    "textview selection \x7b",
    "  background-color: #264f78;",
    "  color: #ffffff;",
    "\x7d",
    "textview border \x7b",
    "  background-color: #252526;",
    "  color: #858585;",
    "\x7d",
    "textview:focus \x7b",
    "  background-color: #1e1e1e;",
    "  caret-color: #aeafad;",
    "\x7d",
    "textview text selection:focus \x7b",
    "  background-color: #2b2b2b;",
    "\x7d"]

/-- Light theme CSS (theme_manager.c, lines 60-85): the adjacent string literals of the
source, joined. -/
def light_theme_css : String :=
  String.join [
    "textview \x7b",
    "  background-color: #ffffff;",
    "  color: #000000;",
    "  font-family: monospace;",
    "  font-size: 11pt;",
    "\x7d",
    "textview text \x7b",
    "  background-color: #ffffff;",
    "  color: #000000;",
    "\x7d",
    "textview selection \x7b",
    "  background-color: #add6ff;",
    "  color: #000000;",
    "\x7d",
    "textview border \x7b",
    "  background-color: #f0f0f0;",
    "  color: #237893;",
    "\x7d",
    "textview:focus \x7b",
    "  background-color: #ffffff;",
    "  caret-color: #000000;",
    "\x7d",
    "textview text selection:focus \x7b",
    "  background-color: #f2f2f2;",
    "\x7d"]

/-- Embeds `theme_manager_get_colors` (theme_manager.c, lines 151-159); the value is the
structure the returned pointer refers to. -/
def theme_manager_get_colors (manager : Option ThemeManager) : ThemeColors :=
  match manager with
  | none => dark_theme
  | some m => if m.current_theme = THEME_DARK then dark_theme else light_theme

/-- Embeds `theme_manager_get_css` (theme_manager.c, lines 172-180). -/
def theme_manager_get_css (manager : Option ThemeManager) : String :=
  match manager with
  | none => dark_theme_css
  | some m => if m.current_theme = THEME_DARK then dark_theme_css else light_theme_css

/-- The other member of the two-element set of variants, as the specification words
`toggle`. -/
def other_variant : ThemeType → ThemeType
  | THEME_DARK => THEME_LIGHT
  | THEME_LIGHT => THEME_DARK

/-- The specification's `toggle()`: `set(the other variant)`. -/
def toggle_spec (m : ThemeManager) : Option ThemeManager × List Notification :=
  theme_manager_set_theme (some m) (other_variant m.current_theme)

/-! ### The window's theme observer (`src/ui/main_window.c`) -/

/-- What `main_window_apply_theme` hands to the toolkit: the style sheet loaded into the
CSS provider and the name of the style scheme looked up. -/
structure AppliedTheme where
  css : String
  scheme_name : String
deriving DecidableEq

/-- Embeds `main_window_apply_theme` (main_window.c, lines 296-317) for a present window.
`theme_manager` is what `application_get_theme_manager(window->app)` hands out, the
manager the window registered its callback with (main_window.c, lines 212-213). -/
def main_window_apply_theme (theme_manager : Option ThemeManager) : AppliedTheme :=
  let css := theme_manager_get_css theme_manager
  let current_theme := theme_manager_get_current theme_manager
  let scheme_name := if current_theme = THEME_DARK then "notebook-dark" else "notebook-light"
  { css := css, scheme_name := scheme_name }

/-- Embeds `on_theme_changed` (main_window.c, lines 595-599): the `theme` argument is
ignored and the theme is taken from the manager as it is at the time of the call. -/
def on_theme_changed (_theme : ThemeType) (seen : ThemeManager) : AppliedTheme :=
  main_window_apply_theme (some seen)

/-! ## Persistence gateway: error messages and path predicates -/

/-- The integer value of each result code: the enumerators count up from
`FILE_OP_SUCCESS = 0` (`include/io/file_operations.h`, lines 18-26). -/
def FileOperationResult.toInt : FileOperationResult → Int
  | FILE_OP_SUCCESS => 0
  | FILE_OP_ERROR_OPEN => 1
  | FILE_OP_ERROR_READ => 2
  | FILE_OP_ERROR_WRITE => 3
  | FILE_OP_ERROR_MEMORY => 4
  | FILE_OP_ERROR_INVALID_PATH => 5
  | FILE_OP_ERROR_PERMISSION => 6

/-- Error messages for each result code (file_operations.c, lines 13-21): the array the
designated initializers build, entry `i` being the message of the code with value `i`. -/
def error_messages : List String :=
  [ "Operation successful",
    "Failed to open file",
    "Failed to read file",
    "Failed to write file",
    "Memory allocation failed",
    "Invalid file path",
    "Permission denied" ]

/-- Embeds `file_operations_get_error_message` (file_operations.c, lines 161-166) on the
integer value of its argument; `error_messages.length` is
`sizeof(error_messages) / sizeof(error_messages[0])`. Where the compiler represents the
enumeration without a sign, a negative code arrives as a value of at least `2^31` and
takes the same branch as here. -/
def file_operations_get_error_message (result : Int) : String :=
  if result ≥ 0 ∧ result < (error_messages.length : Int) then
    error_messages.getD result.toNat ""
  else "Unknown error"

/-- The access mode `W_OK`. -/
def W_OK : Nat := 2

/-- The byte `'/'`. -/
def slash : Byte := 47

/-- The path `"."`. -/
def path_dot : CStr := ⟨[46], by decide⟩

/-- The path `"/"`, the root directory. -/
def path_root : CStr := ⟨[47], by decide⟩

/-- What the file system answers to the path predicates, and whether `strdup` fails. -/
structure PathEnv where
  /-- `stat(path, &st) == 0` -/
  stat_ok : CStr → Bool
  /-- `access(path, mode) == 0`, for a path that is not the empty string -/
  access_ok : CStr → Nat → Bool
  /-- `strdup` returns `NULL` -/
  strdup_fails : Bool

/-- Models `access(path, mode) == 0`: the empty string names no file (`ENOENT`), any other
path is answered by the environment. -/
def access (env : PathEnv) (path : CStr) (mode : Nat) : Bool :=
  if path.val = [] then false else env.access_ok path mode

/-- Models `strrchr(s, c)` for a `c` other than NUL: the index of the last occurrence of
`c` in `s`, `none` for `NULL`. -/
def strrchr : List Byte → Byte → Option Nat
  | [], _ => none
  | b :: rest, c =>
    match strrchr rest c with
    | some i => some (i + 1)
    | none => if b = c then some 0 else none

/-- The C string left in a buffer holding `s` after `buffer[i] = 0`: the first `i` bytes
of `s`. -/
def CStr.truncate (s : CStr) (i : Nat) : CStr :=
  ⟨s.val.take i, fun h => s.property (List.mem_of_mem_take h)⟩

/-- Embeds `file_operations_exists` (file_operations.c, lines 114-121). -/
def file_operations_exists (env : PathEnv) (path : Option CStr) : Bool :=
  match path with
  | none => false
  | some p => env.stat_ok p

/-- Embeds `file_operations_is_writable` (file_operations.c, lines 131-159). -/
def file_operations_is_writable (env : PathEnv) (path : Option CStr) : Bool :=
  match path with
  | none => false
  | some p =>
    -- Check if file exists
    if file_operations_exists env (some p) then access env p W_OK
    -- If file doesn't exist, check if directory is writable
    else if env.strdup_fails then false
    else
      match strrchr p.val slash with
      | some last_slash => access env (p.truncate last_slash) W_OK
      | none => access env path_dot W_OK

/-- The parent directory of a path as the specification words it: the current working
directory when the path holds no separator, the root directory for a path directly under
the root, and otherwise the part of the path in front of its last separator. -/
def parent_directory (p : CStr) : CStr :=
  match strrchr p.val slash with
  | none => path_dot
  | some 0 => path_root
  | some (i + 1) => p.truncate (i + 1)

/-! ## Clipboard (`src/clipboard/clipboard_operations.c`) -/

/-- The `struct ClipboardOperations`: `buffer` is `none` for `NULL` and otherwise the C
string stored; the callback is a function pointer, `none` when `NULL`. -/
structure ClipboardOperations where
  buffer : Option CStr
  callback : Option Nat
  user_data : Nat
deriving DecidableEq

/-- One invocation `callback(user_data)` of the clipboard callback. -/
structure ClipboardNotification where
  callback : Nat
  user_data : Nat
deriving DecidableEq

/-- Embeds `clipboard_operations_create` (clipboard_operations.c, lines 19-30). -/
def clipboard_operations_create (malloc_fails : Bool) : Option ClipboardOperations :=
  if malloc_fails then none
  else some { buffer := none, callback := none, user_data := 0 }

/-- Embeds `clipboard_operations_copy` (clipboard_operations.c, lines 41-59): the `bool`
returned, the clipboard after the call and the callback invocations made during it.
`strdup_fails` is the outcome of its `strdup`. -/
def clipboard_operations_copy (strdup_fails : Bool) (clipboard : Option ClipboardOperations)
    (text : Option CStr) : Bool × Option ClipboardOperations × List ClipboardNotification :=
  match clipboard, text with
  | some c, some t =>
    if strdup_fails then (false, some c, [])
    else
      let c1 := { c with buffer := some t }
      match c1.callback with
      | some cb => (true, some c1, [⟨cb, c1.user_data⟩])
      | none => (true, some c1, [])
  | _, _ => (false, clipboard, [])

/-- Embeds `clipboard_operations_paste` (clipboard_operations.c, lines 61-67): the text
returned (`none` for `NULL`) and the clipboard after the call. `strdup_fails` is the
outcome of its `strdup`, whose result the function returns as it is. -/
def clipboard_operations_paste (strdup_fails : Bool)
    (clipboard : Option ClipboardOperations) : Option CStr × Option ClipboardOperations :=
  match clipboard with
  | none => (none, none)
  | some c =>
    match c.buffer with
    | none => (none, some c)
    | some buffer => (if strdup_fails then none else some buffer, some c)

/-- The byte `s[i]` of the memory holding the C string `s`, terminator included. -/
def CStr.byteAt (s : CStr) (i : Nat) : Byte := (s.val ++ [0]).getD i 0

/-- Embeds `clipboard_operations_has_text` (clipboard_operations.c, lines 69-75). -/
def clipboard_operations_has_text (clipboard : Option ClipboardOperations) : Bool :=
  match clipboard with
  | none => false
  | some c =>
    match c.buffer with
    | none => false
    | some buffer => buffer.byteAt 0 ≠ 0

/-- Embeds `clipboard_operations_clear` (clipboard_operations.c, lines 77-84). -/
def clipboard_operations_clear (clipboard : Option ClipboardOperations) :
    Option ClipboardOperations :=
  match clipboard with
  | none => none
  | some c => some { c with buffer := none }

/-! ### Concrete data for the path predicates and the clipboard -/

/-- The path `"/name"`. -/
def path_slash_name : CStr := ⟨[47, 110, 97, 109, 101], by decide⟩

/-- A file system in which only the root directory exists, writable for the caller. -/
def env_root_writable : PathEnv :=
  { stat_ok := fun p => decide (p = path_root),
    access_ok := fun p _ => decide (p = path_root),
    strdup_fails := false }

/-- The empty C string `""`. -/
def text_empty : CStr := ⟨[], by decide⟩

/-- A clipboard that was just created. -/
def clipboard_new : ClipboardOperations := { buffer := none, callback := none, user_data := 0 }

/-- A clipboard holding `"old"`, with callback 5 registered for user data 9. -/
def clipboard_old : ClipboardOperations :=
  { buffer := some text_old, callback := some 5, user_data := 9 }

/-! ## The ways through the gateway -/

/-- The ways through `file_operations_read` when path and Document are present, each with
the outcome it produces. `data` and `size` are the bytes the opened stream delivers and
the offset the system reports for its end. -/
inductive ReadRun (env : Env) (fs : FileSystem) (p : CStr) (d : Document) :
    ReadOutcome → Prop where
  | open_denied (e : Nat) (hopen : fopen_rb env fs p = .error e) (he : e = EACCES) :
      ReadRun env fs p d ⟨FILE_OP_ERROR_PERMISSION, some d, [Call.fopen p .rb (some e)]⟩
  | open_failed (e : Nat) (hopen : fopen_rb env fs p = .error e) (he : e ≠ EACCES) :
      ReadRun env fs p d ⟨FILE_OP_ERROR_OPEN, some d, [Call.fopen p .rb (some e)]⟩
  | size_unknown (data : List Byte) (size : Int)
      (hopen : fopen_rb env fs p = .ok ⟨data, 0, size⟩) (told : Int) (htold : told < 0) :
      ReadRun env fs p d ⟨FILE_OP_ERROR_READ, some d,
        [Call.fopen p .rb none, Call.fseek_end, Call.ftell told, Call.fseek_set,
         Call.fclose (!env.fclose_fails)]⟩
  | no_buffer (data : List Byte) (size : Int)
      (hopen : fopen_rb env fs p = .ok ⟨data, 0, size⟩) (hsize : 0 ≤ size) :
      ReadRun env fs p d ⟨FILE_OP_ERROR_MEMORY, some d,
        [Call.fopen p .rb none, Call.fseek_end, Call.ftell size, Call.fseek_set,
         Call.malloc (malloc_request size) false, Call.fclose (!env.fclose_fails)]⟩
  | short_read (data : List Byte) (size : Int)
      (hopen : fopen_rb env fs p = .ok ⟨data, 0, size⟩) (hsize : 0 ≤ size) (got : Nat)
      (hgot : got < size.toNat) :
      ReadRun env fs p d ⟨FILE_OP_ERROR_READ, some d,
        [Call.fopen p .rb none, Call.fseek_end, Call.ftell size, Call.fseek_set,
         Call.malloc (malloc_request size) true, Call.fread size.toNat got,
         Call.fclose (!env.fclose_fails)]⟩
  | no_content_copy (data : List Byte) (size : Int)
      (hopen : fopen_rb env fs p = .ok ⟨data, 0, size⟩) (hsize : 0 ≤ size) :
      ReadRun env fs p d ⟨FILE_OP_ERROR_MEMORY, some d,
        [Call.fopen p .rb none, Call.fseek_end, Call.ftell size, Call.fseek_set,
         Call.malloc (malloc_request size) true, Call.fread size.toNat size.toNat,
         Call.fclose (!env.fclose_fails),
         Call.document_set_content (CStr.ofBuffer (data.take size.toNat ++ [0])) false]⟩
  | no_path_copy (data : List Byte) (size : Int)
      (hopen : fopen_rb env fs p = .ok ⟨data, 0, size⟩) (hsize : 0 ≤ size) :
      ReadRun env fs p d ⟨FILE_OP_ERROR_MEMORY,
        some { d with content := some (CStr.ofBuffer (data.take size.toNat ++ [0])),
                      modified := true },
        [Call.fopen p .rb none, Call.fseek_end, Call.ftell size, Call.fseek_set,
         Call.malloc (malloc_request size) true, Call.fread size.toNat size.toNat,
         Call.fclose (!env.fclose_fails),
         Call.document_set_content (CStr.ofBuffer (data.take size.toNat ++ [0])) true,
         Call.document_set_file_path p false]⟩
  | success (data : List Byte) (size : Int)
      (hopen : fopen_rb env fs p = .ok ⟨data, 0, size⟩) (hsize : 0 ≤ size) :
      ReadRun env fs p d ⟨FILE_OP_SUCCESS,
        some { content := some (CStr.ofBuffer (data.take size.toNat ++ [0])),
               file_path := some p, modified := false },
        [Call.fopen p .rb none, Call.fseek_end, Call.ftell size, Call.fseek_set,
         Call.malloc (malloc_request size) true, Call.fread size.toNat size.toNat,
         Call.fclose (!env.fclose_fails),
         Call.document_set_content (CStr.ofBuffer (data.take size.toNat ++ [0])) true,
         Call.document_set_file_path p true, Call.document_mark_saved]⟩

/-- The ways through `file_operations_write` when path and Document are present, each
with the outcome it produces. On the ways that opened a regular file, `k` counts the bytes
of the content that the file holds afterwards; a special file leaves the file system as it
is. -/
inductive WriteRun (env : Env) (fs : FileSystem) (p : CStr) (d : Document) :
    WriteOutcome → Prop where
  | no_content (hc : d.content = none) :
      WriteRun env fs p d ⟨FILE_OP_ERROR_MEMORY, fs, some d, [Call.document_get_content]⟩
  | open_denied (c : CStr) (hc : d.content = some c) (e : Nat)
      (hopen : env.fopen_errno = some e) (he : e = EACCES) :
      WriteRun env fs p d ⟨FILE_OP_ERROR_PERMISSION, fs, some d,
        [Call.document_get_content, Call.fopen p .wb (some e)]⟩
  | open_failed (c : CStr) (hc : d.content = some c) (e : Nat)
      (hopen : env.fopen_errno = some e) (he : e ≠ EACCES) :
      WriteRun env fs p d ⟨FILE_OP_ERROR_OPEN, fs, some d,
        [Call.document_get_content, Call.fopen p .wb (some e)]⟩
  | short_write (c : CStr) (hc : d.content = some c) (hopen : env.fopen_errno = none)
      (hreg : names_special env fs p = false)
      (put : Nat) (hput : put < strlen c) (k : Nat) (ok : Bool) :
      WriteRun env fs p d ⟨FILE_OP_ERROR_WRITE, Function.update fs p (some (c.val.take k)),
        some d,
        [Call.document_get_content, Call.fopen p .wb none, Call.fwrite (strlen c) put,
         Call.fclose ok]⟩
  | close_failed (c : CStr) (hc : d.content = some c) (hopen : env.fopen_errno = none)
      (hreg : names_special env fs p = false)
      (hput : fwrite env (strlen c) = strlen c) (hclose : env.fclose_fails = true)
      (k : Nat) :
      WriteRun env fs p d ⟨FILE_OP_ERROR_WRITE, Function.update fs p (some (c.val.take k)),
        some d,
        [Call.document_get_content, Call.fopen p .wb none, Call.fwrite (strlen c) (strlen c),
         Call.fclose false]⟩
  | success (c : CStr) (hc : d.content = some c) (hopen : env.fopen_errno = none)
      (hreg : names_special env fs p = false)
      (hput : fwrite env (strlen c) = strlen c) (hclose : env.fclose_fails = false) :
      WriteRun env fs p d ⟨FILE_OP_SUCCESS, Function.update fs p (some c.val), some d,
        [Call.document_get_content, Call.fopen p .wb none, Call.fwrite (strlen c) (strlen c),
         Call.fclose true]⟩
  | special_short_write (c : CStr) (hc : d.content = some c)
      (hopen : env.fopen_errno = none) (hspec : names_special env fs p = true)
      (put : Nat) (hput : put < strlen c) (ok : Bool) :
      WriteRun env fs p d ⟨FILE_OP_ERROR_WRITE, fs, some d,
        [Call.document_get_content, Call.fopen p .wb none, Call.fwrite (strlen c) put,
         Call.fclose ok]⟩
  | special_close_failed (c : CStr) (hc : d.content = some c)
      (hopen : env.fopen_errno = none) (hspec : names_special env fs p = true)
      (hput : fwrite env (strlen c) = strlen c) (hclose : env.fclose_fails = true) :
      WriteRun env fs p d ⟨FILE_OP_ERROR_WRITE, fs, some d,
        [Call.document_get_content, Call.fopen p .wb none, Call.fwrite (strlen c) (strlen c),
         Call.fclose false]⟩
  | special_success (c : CStr) (hc : d.content = some c)
      (hopen : env.fopen_errno = none) (hspec : names_special env fs p = true)
      (hput : fwrite env (strlen c) = strlen c) (hclose : env.fclose_fails = false) :
      WriteRun env fs p d ⟨FILE_OP_SUCCESS, fs, some d,
        [Call.document_get_content, Call.fopen p .wb none, Call.fwrite (strlen c) (strlen c),
         Call.fclose true]⟩

/-! ### More concrete data -/

/-- A file system whose only file is `"a"`, holding the three bytes `'A'`, NUL, `'B'`. -/
def fs_nul : FileSystem := fun p => if p = path_a then some [65, 0, 66] else none

/-- The C string `"A"`. -/
def text_A : CStr := ⟨[65], by decide⟩

/-- An environment in which `fopen` fails with `EACCES`. -/
def env_denied : Env := { Env.ok with fopen_errno := some EACCES }

/-- An environment in which `fwrite` accepts a single byte. -/
def env_short_write : Env := { Env.ok with fwrite_short := some 1 }

/-- An unmodified Document whose content cannot be handed out. -/
def doc_unreadable : Document := { content := none, file_path := none, modified := false }

/-- A manager in the dark theme with callback 7 registered for user data 42. -/
def manager_dark : ThemeManager := { current_theme := THEME_DARK, callback := some 7, user_data := 42 }

/-! ## Window title (`src/ui/main_window.c`) -/

/-- The bytes of an ASCII string literal of the source. -/
def ascii (s : String) : List Byte := s.toList.map (fun ch => Fin.ofNat ch.toNat)

/-- The literal `"Untitled"`. -/
def str_untitled : CStr := ⟨ascii "Untitled", by decide⟩

/-- The literal text in front of `%s` in both title formats, `"Notebook - "`. -/
def str_notebook : CStr := ⟨ascii "Notebook - ", by decide⟩

/-- The literal text behind `%s` in the format `"Notebook - %s *"`, `" *"`. -/
def str_star : CStr := ⟨ascii " *", by decide⟩

/-- The C string that starts at `s + n`, for `n` within the string. -/
def CStr.drop (s : CStr) (n : Nat) : CStr :=
  ⟨s.val.drop n, fun h => s.property (List.mem_of_mem_drop h)⟩

/-- Models `snprintf(buffer, size, "<before>%s<after>", arg)` for a `size` of at least 1:
the C string left in the buffer, which is the formatted text cut to `size - 1` bytes
(the last byte of the buffer holds the terminator). -/
def snprintf_s (size : Nat) (before arg after : CStr) : CStr :=
  ⟨(before.val ++ arg.val ++ after.val).take (size - 1), fun h => by
    have h1 := List.mem_of_mem_take h
    simp only [List.mem_append] at h1
    rcases h1 with (h2 | h2) | h2
    · exact before.property h2
    · exact arg.property h2
    · exact after.property h2⟩

/-- The part of the `struct MainWindow` that `main_window_update_title` acts on: the title
of the toolkit window. -/
structure MainWindow where
  title : CStr
deriving DecidableEq

/-- Embeds `main_window_update_title` (main_window.c, lines 254-274): the window after the
call, whose title is the argument of `gtk_window_set_title`. -/
def main_window_update_title (window : Option MainWindow) (file_path : Option CStr)
    (modified : Bool) : Option MainWindow :=
  match window with
  | none => none
  | some _ =>
    let filename : CStr :=
      match file_path with
      | none => str_untitled
      | some p =>
        match strrchr p.val slash with
        | some last_slash => p.drop (last_slash + 1)
        | none => p
    let title : CStr :=
      if modified then snprintf_s 512 str_notebook filename str_star
      else snprintf_s 512 str_notebook filename ⟨[], by simp⟩
    some { title := title }

/-- A window titled `"old"`. -/
def window_old : MainWindow := { title := text_old }

/-- The path `"/tmp/x.txt"`. -/
def path_tmp_x : CStr := ⟨ascii "/tmp/x.txt", by decide⟩

/-! ## Style sheet and color payload -/

/-- Whether the characters `needle` stand at the start of `text`. -/
def starts_with (needle text : List Char) : Bool :=
  decide (text.take needle.length = needle)

/-- Whether the characters `needle` occur somewhere in `text`, in one piece. -/
def occurs_in (needle : List Char) : List Char → Bool
  | [] => starts_with needle []
  | b :: bs => starts_with needle (b :: bs) || occurs_in needle bs

/-- Whether the style sheet `css` holds the text `piece`. -/
def css_holds (css piece : String) : Bool := occurs_in piece.toList css.toList

/-- What the specification expects at the start of a style sheet for the payload `c`: the
`textview` rule with the background as `background-color` and the foreground as
`color`. -/
def textview_rule_opening (c : ThemeColors) : String :=
  String.join ["textview \x7b", "  background-color: ", c.background, ";",
    "  color: ", c.foreground, ";"]

/-- What the specification expects of a style sheet for the payload `c`: the selection
rule with the two selection colors. -/
def selection_rule (c : ThemeColors) : String :=
  String.join ["textview selection \x7b", "  background-color: ", c.selection_bg, ";",
    "  color: ", c.selection_fg, ";", "\x7d"]

/-- What the specification expects of a style sheet for the payload `c`: the cursor color
as the `caret-color`. -/
def caret_declaration (c : ThemeColors) : String :=
  String.join ["  caret-color: ", c.cursor, ";"]

/-! ### Concrete data: special files and combined failures -/

/-- A file system without any regular file. -/
def fs_empty : FileSystem := fun _ => none

/-- The path `"/dev/null"`. -/
def path_dev_null : CStr := ⟨ascii "/dev/null", by decide⟩

/-- An environment in which `"/dev/null"` is the null device: it delivers no byte, reports
its end at 0 and stores nothing; no library call fails. -/
def env_dev_null : Env :=
  { Env.ok with special := fun p => if p = path_dev_null then some ⟨[], 0⟩ else none }

/-- The path `"/proc/sys/kernel/ostype"`. -/
def path_ostype : CStr := ⟨ascii "/proc/sys/kernel/ostype", by decide⟩

/-- The six bytes of `"Linux"` followed by a line feed. -/
def bytes_ostype : List Byte := [76, 105, 110, 117, 120, 10]

/-- An environment in which `"/proc/sys/kernel/ostype"` is a procfs entry that delivers
six bytes and reports its end at 0; no library call fails. -/
def env_ostype : Env :=
  { Env.ok with special := fun p => if p = path_ostype then some ⟨bytes_ostype, 0⟩ else none }

/-- The path `"/tmp"`. -/
def path_tmp : CStr := ⟨ascii "/tmp", by decide⟩

/-- An environment in which `"/tmp"` is a directory: opened for reading it delivers no
byte and reports its end at `LONG_MAX`; no library call fails. -/
def env_directory : Env :=
  { Env.ok with special := fun p => if p = path_tmp then some ⟨[], 2 ^ 63 - 1⟩ else none }

/-- An environment in which the buffer is not allocated and a read would deliver no
byte. -/
def env_no_buffer_short_read : Env :=
  { Env.ok with malloc_fails := true, fread_short := some 0 }

/-- A manager in the light theme with no callback registered. -/
def manager_light : ThemeManager := { current_theme := THEME_LIGHT, callback := none, user_data := 0 }

/-- The manager after `theme_manager_register_callback(m, c1, u1)` followed by
`theme_manager_register_callback(m, c2, u2)`. -/
def registered_twice (m : ThemeManager) (c1 : Option Nat) (u1 : Nat) (c2 : Option Nat)
    (u2 : Nat) : Option ThemeManager × List Notification :=
  theme_manager_register_callback (theme_manager_register_callback (some m) c1 u1).1 c2 u2

/-! ## Theorems: persistence gateway -/

/-- Whatever the environment, `fread` delivers at most the bytes asked for. -/
theorem fread_length_le (env : Env) (file : FILE) (n : Nat) :
    (fread env file n).length ≤ n := by
  unfold fread
  split <;> simp [List.length_take]

/-- Whatever the environment, `fwrite` accepts at most the bytes it is given. -/
theorem fwrite_le (env : Env) (n : Nat) : fwrite env n ≤ n := by
  unfold fwrite
  split <;> simp

/-- A read from the start of a stream that delivers as many bytes as were asked for
delivers the first bytes of the stream's data. -/
theorem fread_full (env : Env) (data : List Byte) (size : Int) (n : Nat)
    (h : (fread env ⟨data, 0, size⟩ n).length = n) :
    fread env ⟨data, 0, size⟩ n = data.take n := by
  unfold fread at *
  split at h
  · simp
  · rename_i k _
    simp only [Int.toNat_zero, List.drop_zero] at h ⊢
    rw [List.length_take] at h
    rw [List.take_take]
    congr 1
    omega

/-- A NUL-terminated buffer denotes the bytes in front of its first NUL. -/
theorem ofBuffer_val_append_nul (bytes : List Byte) :
    (CStr.ofBuffer (bytes ++ [0])).val = bytes.takeWhile (fun b => b ≠ 0) := by
  unfold CStr.ofBuffer
  simp only
  induction bytes with
  | nil => simp [List.takeWhile]
  | cons b rest ih =>
    by_cases hb : b = 0
    · simp [List.takeWhile, hb]
    · simpa [List.takeWhile, hb] using ih

/-- Bytes without a NUL are their own longest NUL-free initial segment. -/
theorem takeWhile_of_not_mem (bytes : List Byte) (h : (0 : Byte) ∉ bytes) :
    bytes.takeWhile (fun b => b ≠ 0) = bytes := by
  induction bytes with
  | nil => rfl
  | cons b rest ih =>
    have hb : b ≠ 0 := fun e => h (by simp [e])
    have hr : (0 : Byte) ∉ rest := fun e => h (by simp [e])
    simpa [List.takeWhile, hb] using ih hr

/-- Copying a C string into a NUL-terminated buffer and reading it back as a C string
gives the same C string. -/
theorem ofBuffer_of_cstr (s : CStr) : CStr.ofBuffer (s.val ++ [0]) = s := by
  apply Subtype.ext
  rw [ofBuffer_val_append_nul, takeWhile_of_not_mem _ s.property]

/-- A stream opened for reading is at its start; it is a stream on the regular file at the
path, whose end is at its length, or else on the special file there. -/
theorem fopen_rb_ok (env : Env) (fs : FileSystem) (p : CStr) (file : FILE)
    (h : fopen_rb env fs p = .ok file) :
    (∃ bytes, fs p = some bytes ∧ file = ⟨bytes, 0, bytes.length⟩)
    ∨ (fs p = none ∧ ∃ sp, env.special p = some sp ∧ file = ⟨sp.data, 0, sp.size⟩) := by
  unfold fopen_rb at h
  split at h
  · cases h
  · split at h
    · rename_i bytes hb
      cases h
      exact Or.inl ⟨bytes, hb, rfl⟩
    · rename_i hb
      split at h
      · rename_i sp hsp
        cases h
        exact Or.inr ⟨hb, sp, hsp, rfl⟩
      · cases h

/-- Every run of `file_operations_read` with path and Document present takes one of the
ways of `ReadRun`. -/
theorem file_operations_read_run (env : Env) (fs : FileSystem) (p : CStr) (d : Document) :
    ReadRun env fs p d (file_operations_read env fs (some p) (some d)) := by
  simp only [file_operations_read]
  cases hopen : fopen_rb env fs p with
  | error e =>
    by_cases he : e = EACCES
    · simp only [he, if_true]
      exact .open_denied EACCES (he ▸ hopen) rfl
    · simp only [he, if_false]
      exact .open_failed e hopen he
  | ok file =>
    have hpos : file.pos = 0 := by
      rcases fopen_rb_ok env fs p file hopen with ⟨bytes, _, rfl⟩ | ⟨_, sp, _, rfl⟩ <;> rfl
    obtain ⟨data, pos, size⟩ := file
    simp only at hpos
    subst hpos
    simp only [fseek_end, fseek_set, ftell]
    cases htell : env.ftell_fails
    · simp only [Bool.false_eq_true, if_false]
      by_cases hneg : size < 0
      · simp only [hneg, if_true]
        exact .size_unknown data size hopen size hneg
      · have hsize : 0 ≤ size := by omega
        simp only [hneg, if_false]
        cases hmal : malloc env (malloc_request size)
        · simp only [if_true]
          exact .no_buffer data size hopen hsize
        · simp only [Bool.true_eq_false, if_false]
          by_cases hrd : (fread env ⟨data, 0, size⟩ size.toNat).length = size.toNat
          · simp only [hrd, ne_eq, not_true_eq_false, if_false]
            simp only [fread_full env data size size.toNat hrd,
              document_set_content, document_set_file_path]
            cases hsc : env.set_content_fails
            · cases hsp : env.set_file_path_fails
              · exact .success data size hopen hsize
              · exact .no_path_copy data size hopen hsize
            · exact .no_content_copy data size hopen hsize
          · simp only [ne_eq, hrd, not_false_eq_true, if_true]
            have hle := fread_length_le env ⟨data, 0, size⟩ size.toNat
            exact .short_read data size hopen hsize _ (by omega)
    · simp only [if_true]
      exact .size_unknown data size hopen (-1) (by omega)

/-- A path at which a regular file was just created or truncated names no special
file. -/
theorem names_special_update (env : Env) (fs : FileSystem) (p : CStr) (bytes : List Byte) :
    names_special env (Function.update fs p (some bytes)) p = false := by
  simp [names_special]

/-- Every run of `file_operations_write` with path and Document present takes one of the
ways of `WriteRun`. -/
theorem file_operations_write_run (env : Env) (fs : FileSystem) (p : CStr) (d : Document) :
    WriteRun env fs p d (file_operations_write env fs (some p) (some d)) := by
  simp only [file_operations_write, document_get_content]
  cases hc : d.content with
  | none => exact .no_content hc
  | some c =>
    simp only [fopen_wb]
    cases hopen : env.fopen_errno with
    | some e =>
      by_cases he : e = EACCES
      · simp only [he, if_true]
        exact .open_denied c hc EACCES (he ▸ hopen) rfl
      · simp only [he, if_false]
        exact .open_failed c hc e hopen he
    | none =>
      have hle := fwrite_le env (strlen c)
      have htake : c.val.take (strlen c) = c.val := by simp [strlen]
      cases hspec : names_special env fs p
      · simp only [Bool.false_eq_true, if_false, fclose_wb, names_special_update]
        by_cases hput : fwrite env (strlen c) = strlen c
        · simp only [hput, ne_eq, not_true_eq_false, if_false]
          cases hclose : env.fclose_fails
          · simp only [Bool.false_eq_true, if_false, Function.update_idem, htake]
            exact .success c hc hopen hspec hput hclose
          · simp only [if_true, Function.update_idem, htake]
            exact .close_failed c hc hopen hspec hput hclose env.flushed
        · simp only [ne_eq, hput, not_false_eq_true, if_true]
          cases hclose : env.fclose_fails
          · simp only [Bool.false_eq_true, if_false, Function.update_idem]
            exact .short_write c hc hopen hspec _ (by omega) _ true
          · simp only [if_true, Function.update_idem, List.take_take]
            exact .short_write c hc hopen hspec _ (by omega) _ false
      · simp only [if_true, fclose_wb, hspec]
        by_cases hput : fwrite env (strlen c) = strlen c
        · simp only [hput, ne_eq, not_true_eq_false, if_false]
          cases hclose : env.fclose_fails
          · simp only [Bool.not_false, Bool.true_eq_false, if_false]
            exact .special_success c hc hopen hspec hput hclose
          · simp only [Bool.not_true, if_true]
            exact .special_close_failed c hc hopen hspec hput hclose
        · simp only [ne_eq, hput, not_false_eq_true, if_true]
          exact .special_short_write c hc hopen hspec _ (by omega) _

/-! ### Reading: effect on the Document -/

/-- C1 (failing input): the file `"a"` is read in full, but the Document's copy of the
path cannot be allocated. `file_operations_read` returns OutOfMemory although the content
of the Document has already been replaced by the file's and the Document marked modified:
the content is no longer the one the Document had before the call. -/
theorem read_path_copy_failure_replaces_content :
    (file_operations_read { Env.ok with set_file_path_fails := true } fs_new
        (some path_a) (some doc_old)).result = FILE_OP_ERROR_MEMORY
    ∧ (file_operations_read { Env.ok with set_file_path_fails := true } fs_new
        (some path_a) (some doc_old)).doc
        = some { content := some text_new, file_path := none, modified := true }
    ∧ doc_old.content = some text_old
    ∧ text_new ≠ text_old := by
  decide

/-- Every failure of `file_operations_read` other than the failed copy of the path leaves
the Document exactly as it was. -/
theorem read_failure_keeps_document (env : Env) (fs : FileSystem) (path : Option CStr)
    (doc : Option Document)
    (hfail : (file_operations_read env fs path doc).result ≠ FILE_OP_SUCCESS)
    (hpath : ∀ p, Call.document_set_file_path p false ∉
      (file_operations_read env fs path doc).calls) :
    (file_operations_read env fs path doc).doc = doc := by
  rcases path with _ | p
  · simp [file_operations_read]
  rcases doc with _ | d
  · simp [file_operations_read]
  have hrun := file_operations_read_run env fs p d
  generalize file_operations_read env fs (some p) (some d) = out at hrun hfail hpath ⊢
  cases hrun <;> simp_all

/-- C3: when `file_operations_read` returns Success, the path was present and the Document
afterwards is not modified and is stored at the path that was read, whatever its flag and
path were before; `document_mark_saved` is the last call the gateway made. -/
theorem read_success_marks_saved (env : Env) (fs : FileSystem) (path : Option CStr)
    (doc : Option Document)
    (hok : (file_operations_read env fs path doc).result = FILE_OP_SUCCESS) :
    ∃ p d1, path = some p ∧ (file_operations_read env fs path doc).doc = some d1
      ∧ d1.modified = false ∧ d1.file_path = some p
      ∧ (file_operations_read env fs path doc).calls.getLast? = some Call.document_mark_saved := by
  rcases path with _ | p
  · simp [file_operations_read] at hok
  rcases doc with _ | d
  · simp [file_operations_read] at hok
  have hrun := file_operations_read_run env fs p d
  generalize file_operations_read env fs (some p) (some d) = out at hrun hok ⊢
  cases hrun <;> simp_all

/-- Witness for C3: reading the file `"a"` into a modified Document stored nowhere, with
no library failure. -/
theorem read_success_marks_saved_witness :
    (file_operations_read Env.ok fs_new (some path_a) (some doc_old)).result = FILE_OP_SUCCESS
    ∧ ∃ p d1, some path_a = some p
      ∧ (file_operations_read Env.ok fs_new (some path_a) (some doc_old)).doc = some d1
      ∧ d1.modified = false ∧ d1.file_path = some p
      ∧ (file_operations_read Env.ok fs_new (some path_a) (some doc_old)).calls.getLast?
          = some Call.document_mark_saved :=
  ⟨by decide, read_success_marks_saved Env.ok fs_new (some path_a) (some doc_old) (by decide)⟩

/-- C6 (counterexample): the file `"a"` holds the three bytes `'A'`, NUL, `'B'`. The read
returns Success, yet the Document's content is the single byte `'A'`: the bytes from the
NUL on are dropped. And the procfs entry `"/proc/sys/kernel/ostype"` delivers six bytes,
none of them NUL, while its end is reported at 0: the read returns Success with empty
content. -/
theorem read_drops_bytes_after_nul :
    fs_nul path_a = some [65, 0, 66]
    ∧ (file_operations_read Env.ok fs_nul (some path_a) (some doc_old)).result
        = FILE_OP_SUCCESS
    ∧ (file_operations_read Env.ok fs_nul (some path_a) (some doc_old)).doc
        = some { content := some text_A, file_path := some path_a, modified := false }
    ∧ text_A.val ≠ [65, 0, 66]
    ∧ env_ostype.special path_ostype = some ⟨bytes_ostype, 0⟩
    ∧ (0 : Byte) ∉ bytes_ostype
    ∧ (file_operations_read env_ostype fs_empty (some path_ostype) (some doc_old)).result
        = FILE_OP_SUCCESS
    ∧ (file_operations_read env_ostype fs_empty (some path_ostype) (some doc_old)).doc
        = some { content := some text_empty, file_path := some path_ostype,
                 modified := false } := by
  decide

/-- C6 (amended): when `file_operations_read` returns Success, the Document's content is
cut from the bytes of the file at the path. For a regular file it is the bytes of the file
in front of its first NUL byte, and so the complete byte sequence of a file without a NUL
byte (a zero-length file included). For a special file it is the bytes in front of the
first NUL byte among the first `size` bytes the file delivers, `size` being the offset
reported for its end. -/
theorem read_success_content (env : Env) (fs : FileSystem) (path : Option CStr)
    (doc : Option Document)
    (hok : (file_operations_read env fs path doc).result = FILE_OP_SUCCESS) :
    ∃ p d1 c, path = some p
      ∧ (file_operations_read env fs path doc).doc = some d1 ∧ d1.content = some c
      ∧ (∀ bytes, fs p = some bytes →
          c.val = bytes.takeWhile (fun b => b ≠ 0) ∧ ((0 : Byte) ∉ bytes → c.val = bytes))
      ∧ (fs p = none → ∃ sp, env.special p = some sp ∧ 0 ≤ sp.size
          ∧ c.val = (sp.data.take sp.size.toNat).takeWhile (fun b => b ≠ 0)) := by
  rcases path with _ | p
  · simp [file_operations_read] at hok
  rcases doc with _ | d
  · simp [file_operations_read] at hok
  have hrun := file_operations_read_run env fs p d
  generalize file_operations_read env fs (some p) (some d) = out at hrun hok ⊢
  cases hrun with
  | success data size hopen hsize =>
    refine ⟨p, _, CStr.ofBuffer (data.take size.toNat ++ [0]), rfl, rfl, rfl, ?_, ?_⟩
    · intro bytes hfile
      rcases fopen_rb_ok env fs p _ hopen with ⟨b2, hb2, hf⟩ | ⟨hnone, _⟩
      · have hbb : bytes = b2 := by
          rw [hfile] at hb2
          exact Option.some.inj hb2
        subst hbb
        cases hf
        simp only [Int.toNat_ofNat, List.take_length]
        refine ⟨ofBuffer_val_append_nul _, fun h => ?_⟩
        rw [ofBuffer_val_append_nul, takeWhile_of_not_mem _ h]
      · rw [hfile] at hnone
        cases hnone
    · intro hnone
      rcases fopen_rb_ok env fs p _ hopen with ⟨b2, hb2, _⟩ | ⟨_, sp, hsp, hf⟩
      · rw [hnone] at hb2
        cases hb2
      · cases hf
        exact ⟨sp, hsp, hsize, ofBuffer_val_append_nul _⟩
  | _ => simp at hok

/-- Witness for C6 (amended): reading the regular file `"a"`, which holds the bytes of
`"new"`. -/
theorem read_success_content_witness :
    (file_operations_read Env.ok fs_new (some path_a) (some doc_old)).result = FILE_OP_SUCCESS
    ∧ fs_new path_a = some [110, 101, 119]
    ∧ (file_operations_read Env.ok fs_new (some path_a) (some doc_old)).doc
        = some { content := some text_new, file_path := some path_a, modified := false }
    ∧ ∃ p d1 c, some path_a = some p
      ∧ (file_operations_read Env.ok fs_new (some path_a) (some doc_old)).doc = some d1
      ∧ d1.content = some c
      ∧ (∀ bytes, fs_new p = some bytes →
          c.val = bytes.takeWhile (fun b => b ≠ 0) ∧ ((0 : Byte) ∉ bytes → c.val = bytes))
      ∧ (fs_new p = none → ∃ sp, Env.ok.special p = some sp ∧ 0 ≤ sp.size
          ∧ c.val = (sp.data.take sp.size.toNat).takeWhile (fun b => b ≠ 0)) :=
  ⟨by decide, by decide, by decide,
    read_success_content Env.ok fs_new (some path_a) (some doc_old) (by decide)⟩

/-- C9 (counterexample): the file `"a"` is opened and its size determined, the buffer is
not allocated, and a read would deliver no byte. The claimed order puts ReadError first;
the code never reads and returns OutOfMemory. -/
theorem read_buffer_check_precedes_read :
    read_result_claimed env_no_buffer_short_read fs_new (some path_a) (some doc_old)
        = FILE_OP_ERROR_READ
    ∧ (file_operations_read env_no_buffer_short_read fs_new (some path_a)
        (some doc_old)).result = FILE_OP_ERROR_MEMORY := by
  decide

/-- C9 (amended): the result of `file_operations_read` is decided in this order:
InvalidPath when the path or the Document is absent; PermissionDenied when the open fails
with access denied and OpenError when it fails otherwise; ReadError when the size is not
determined; OutOfMemory when the buffer is not allocated; ReadError when fewer bytes than
the size are read; OutOfMemory when the Document's copy of the content, and then of the
path, is not allocated; Success otherwise. -/
theorem read_result_order (env : Env) (fs : FileSystem) (path : Option CStr)
    (doc : Option Document) :
    (file_operations_read env fs path doc).result
      = read_result_in_order env fs path doc := by
  rcases path with _ | p
  · simp [file_operations_read, read_result_in_order]
  rcases doc with _ | d
  · simp [file_operations_read, read_result_in_order]
  simp only [file_operations_read, read_result_in_order]
  cases hopen : fopen_rb env fs p with
  | error e =>
    by_cases he : e = EACCES <;> simp [he]
  | ok file =>
    simp only
    by_cases hneg : ftell env (fseek_end file) < 0
    · simp [hneg]
    · simp only [hneg, if_false]
      cases hmal : malloc env (malloc_request (ftell env (fseek_end file)))
      · simp
      · simp only [Bool.true_eq_false, if_false]
        have hle := fread_length_le env (fseek_set (fseek_end file))
          (ftell env (fseek_end file)).toNat
        by_cases hrd : (fread env (fseek_set (fseek_end file))
            (ftell env (fseek_end file)).toNat).length = (ftell env (fseek_end file)).toNat
        · simp only [hrd, ne_eq, not_true_eq_false, if_false, lt_self_iff_false,
            document_set_content, document_set_file_path]
          cases hsc : env.set_content_fails <;> cases hsp : env.set_file_path_fails <;> simp
        · have hlt : (fread env (fseek_set (fseek_end file))
              (ftell env (fseek_end file)).toNat).length
              < (ftell env (fseek_end file)).toNat := by omega
          simp [hrd, hlt]

/-- Witness for C9 (amended): with the size not determined and the buffer not allocated
the result is ReadError; with the buffer not allocated and a read that would be short it
is OutOfMemory; and for a directory, whose end is reported at `LONG_MAX`, the buffer is
not allocated and the result is OutOfMemory. -/
theorem read_result_order_witness :
    (file_operations_read { Env.ok with ftell_fails := true, malloc_fails := true } fs_new
        (some path_a) (some doc_old)).result = FILE_OP_ERROR_READ
    ∧ (file_operations_read env_no_buffer_short_read fs_new (some path_a)
        (some doc_old)).result = FILE_OP_ERROR_MEMORY
    ∧ (file_operations_read env_directory fs_empty (some path_tmp)
        (some doc_old)).result = FILE_OP_ERROR_MEMORY :=
  ⟨(read_result_order { Env.ok with ftell_fails := true, malloc_fails := true } fs_new
      (some path_a) (some doc_old)).trans (by decide),
    (read_result_order env_no_buffer_short_read fs_new (some path_a)
      (some doc_old)).trans (by decide),
    (read_result_order env_directory fs_empty (some path_tmp)
      (some doc_old)).trans (by decide)⟩

/-! ### Writing -/

/-- C2 (counterexample): a file exists at `"a"` with the bytes of `"new"`; writing a
Document holding `"old"` while `fwrite` accepts one byte only returns WriteError and leaves
the single byte `'o'` in the file. -/
theorem write_error_truncates_file :
    fs_new path_a = some [110, 101, 119]
    ∧ (file_operations_write env_short_write fs_new (some path_a) (some doc_old)).result
        = FILE_OP_ERROR_WRITE
    ∧ (file_operations_write env_short_write fs_new (some path_a) (some doc_old)).fs path_a
        = some [111] := by
  decide

/-- C2 (amended): for a path at which a file exists, when `file_operations_write` returns
InvalidPath, OutOfMemory, PermissionDenied or OpenError the bytes stored at the path are
the ones stored before the call; when it returns WriteError the file was opened and holds
an initial part of the Document's content. -/
theorem write_failure_file_state (env : Env) (fs : FileSystem) (p : CStr)
    (doc : Option Document) (bytes : List Byte) (hfile : fs p = some bytes)
    (hfail : (file_operations_write env fs (some p) doc).result ≠ FILE_OP_SUCCESS) :
    ((file_operations_write env fs (some p) doc).result ≠ FILE_OP_ERROR_WRITE →
      (file_operations_write env fs (some p) doc).fs p = some bytes)
    ∧ ((file_operations_write env fs (some p) doc).result = FILE_OP_ERROR_WRITE →
      ∃ d c k, doc = some d ∧ document_get_content d = some c
        ∧ (file_operations_write env fs (some p) doc).fs p = some (c.val.take k)) := by
  rcases doc with _ | d
  · simp [file_operations_write, hfile]
  have hrun := file_operations_write_run env fs p d
  generalize file_operations_write env fs (some p) (some d) = out at hrun hfail ⊢
  have hreg : names_special env fs p = false := by simp [names_special, hfile]
  cases hrun with
  | short_write c hc hopen _ put hput k ok =>
    exact ⟨fun h => absurd rfl h, fun _ => ⟨d, c, k, rfl, hc, by simp⟩⟩
  | close_failed c hc hopen _ hput hclose k =>
    exact ⟨fun h => absurd rfl h, fun _ => ⟨d, c, k, rfl, hc, by simp⟩⟩
  | special_short_write c hc hopen hspec => simp [hreg] at hspec
  | special_close_failed c hc hopen hspec => simp [hreg] at hspec
  | special_success c hc hopen hspec => simp [hreg] at hspec
  | _ => simp_all

/-- Witness for C2 (amended): the open is denied, so the file `"a"` keeps its bytes. -/
theorem write_failure_file_state_witness :
    fs_new path_a = some [110, 101, 119]
    ∧ (file_operations_write env_denied fs_new (some path_a) (some doc_old)).result
        ≠ FILE_OP_SUCCESS
    ∧ (file_operations_write env_denied fs_new (some path_a) (some doc_old)).result
        ≠ FILE_OP_ERROR_WRITE
    ∧ (file_operations_write env_denied fs_new (some path_a) (some doc_old)).fs path_a
        = some [110, 101, 119] :=
  ⟨by decide, by decide, by decide,
    (write_failure_file_state env_denied fs_new path_a (some doc_old) [110, 101, 119]
      (by decide) (by decide)).1 (by decide)⟩

/-- C5: whatever the path, the Document and the outcome, `file_operations_write` leaves
the Document as it was (content, path and modified flag), and it calls none of
`document_mark_saved`, `document_set_content` and `document_set_file_path`. -/
theorem write_leaves_document (env : Env) (fs : FileSystem) (path : Option CStr)
    (doc : Option Document) :
    (file_operations_write env fs path doc).doc = doc
    ∧ Call.document_mark_saved ∉ (file_operations_write env fs path doc).calls
    ∧ (∀ text ok,
        Call.document_set_content text ok ∉ (file_operations_write env fs path doc).calls)
    ∧ (∀ q ok,
        Call.document_set_file_path q ok ∉ (file_operations_write env fs path doc).calls) := by
  rcases path with _ | p
  · simp [file_operations_write]
  rcases doc with _ | d
  · simp [file_operations_write]
  have hrun := file_operations_write_run env fs p d
  generalize file_operations_write env fs (some p) (some d) = out at hrun ⊢
  cases hrun <;> simp

/-- C7: `file_operations_write` validates before it touches the file system. With the path
or the Document absent it returns InvalidPath, and with a Document whose content cannot be
handed out it returns OutOfMemory; in both cases it makes no `fopen` call and the file
system is the one before the call (nothing created, nothing truncated). -/
theorem write_validates_first (env : Env) (fs : FileSystem) (path : Option CStr)
    (doc : Option Document) :
    ((path = none ∨ doc = none) →
      (file_operations_write env fs path doc).result = FILE_OP_ERROR_INVALID_PATH
      ∧ (file_operations_write env fs path doc).fs = fs
      ∧ ∀ q mode errno,
          Call.fopen q mode errno ∉ (file_operations_write env fs path doc).calls)
    ∧ (∀ p d, path = some p → doc = some d → document_get_content d = none →
      (file_operations_write env fs path doc).result = FILE_OP_ERROR_MEMORY
      ∧ (file_operations_write env fs path doc).fs = fs
      ∧ ∀ q mode errno,
          Call.fopen q mode errno ∉ (file_operations_write env fs path doc).calls) := by
  constructor
  · intro h
    rcases path with _ | p
    · simp [file_operations_write]
    rcases doc with _ | d
    · simp [file_operations_write]
    · simp at h
  · intro p d hp hd hc
    subst hp hd
    simp [file_operations_write, hc]

/-- Witness for C7: an existing file, first with no Document, then with a Document whose
content cannot be handed out; the file keeps its bytes both times. -/
theorem write_validates_first_witness :
    ((file_operations_write Env.ok fs_new (some path_a) none).result
        = FILE_OP_ERROR_INVALID_PATH
      ∧ (file_operations_write Env.ok fs_new (some path_a) none).fs = fs_new)
    ∧ ((file_operations_write Env.ok fs_new (some path_a) (some doc_unreadable)).result
        = FILE_OP_ERROR_MEMORY
      ∧ (file_operations_write Env.ok fs_new (some path_a) (some doc_unreadable)).fs = fs_new) :=
  ⟨⟨((write_validates_first Env.ok fs_new (some path_a) none).1 (Or.inr rfl)).1,
    ((write_validates_first Env.ok fs_new (some path_a) none).1 (Or.inr rfl)).2.1⟩,
   ⟨((write_validates_first Env.ok fs_new (some path_a) (some doc_unreadable)).2
      path_a doc_unreadable rfl rfl rfl).1,
    ((write_validates_first Env.ok fs_new (some path_a) (some doc_unreadable)).2
      path_a doc_unreadable rfl rfl rfl).2.1⟩⟩

/-- C4 (counterexample): `"/dev/null"` is the null device. Writing a Document holding
`"old"` to it returns Success, reading it back returns Success, and the Document read into
holds the empty content, not `"old"`. -/
theorem round_trip_fails_on_null_device :
    doc_old.content = some text_old
    ∧ (file_operations_write env_dev_null fs_empty (some path_dev_null)
        (some doc_old)).result = FILE_OP_SUCCESS
    ∧ (file_operations_read env_dev_null
        (file_operations_write env_dev_null fs_empty (some path_dev_null) (some doc_old)).fs
        (some path_dev_null) (some doc_unreadable)).result = FILE_OP_SUCCESS
    ∧ (file_operations_read env_dev_null
        (file_operations_write env_dev_null fs_empty (some path_dev_null) (some doc_old)).fs
        (some path_dev_null) (some doc_unreadable)).doc
        = some { content := some text_empty, file_path := some path_dev_null,
                 modified := false }
    ∧ text_empty ≠ text_old := by
  decide

/-- C4 (amended): for a path that names no special file when it is written (a regular file
exists there, or no file at all), when writing a Document to the path returns Success and
reading that path back from the file system the write left behind returns Success, the
Document read into holds the content of the Document written, byte for byte. -/
theorem write_then_read_round_trip (envW envR : Env) (fs : FileSystem) (p : CStr)
    (d d2 : Document)
    (hreg : names_special envW fs p = false)
    (hw : (file_operations_write envW fs (some p) (some d)).result = FILE_OP_SUCCESS)
    (hr : (file_operations_read envR (file_operations_write envW fs (some p) (some d)).fs
            (some p) (some d2)).result = FILE_OP_SUCCESS) :
    ∃ c d3, d.content = some c
      ∧ (file_operations_read envR (file_operations_write envW fs (some p) (some d)).fs
          (some p) (some d2)).doc = some d3
      ∧ d3.content = some c := by
  have hwrun := file_operations_write_run envW fs p d
  generalize file_operations_write envW fs (some p) (some d) = wout at hwrun hw hr ⊢
  cases hwrun with
  | success c hc hopen _ hput hclose =>
    have hrrun := file_operations_read_run envR (Function.update fs p (some c.val)) p d2
    generalize file_operations_read envR (Function.update fs p (some c.val)) (some p)
      (some d2) = rout at hrrun hr ⊢
    cases hrrun with
    | success data size hopenr hsize =>
      rcases fopen_rb_ok envR _ p _ hopenr with ⟨bytes, hb, hf⟩ | ⟨hnone, _⟩
      · have hbc : bytes = c.val := by simpa using hb.symm
        subst hbc
        cases hf
        refine ⟨c, _, hc, rfl, ?_⟩
        simp [ofBuffer_of_cstr]
      · simp at hnone
    | _ => simp at hr
  | special_success c hc hopen hspec => simp [hreg] at hspec
  | _ => simp at hw

/-- Witness for C4 (amended): a Document holding `"old"` written to the regular file `"a"`
and read back, with no library failure on either side. -/
theorem write_then_read_round_trip_witness :
    names_special Env.ok fs_new path_a = false
    ∧ (file_operations_write Env.ok fs_new (some path_a) (some doc_old)).result
        = FILE_OP_SUCCESS
    ∧ (file_operations_read Env.ok
        (file_operations_write Env.ok fs_new (some path_a) (some doc_old)).fs
        (some path_a) (some doc_unreadable)).result = FILE_OP_SUCCESS
    ∧ ∃ c d3, doc_old.content = some c
      ∧ (file_operations_read Env.ok
          (file_operations_write Env.ok fs_new (some path_a) (some doc_old)).fs
          (some path_a) (some doc_unreadable)).doc = some d3
      ∧ d3.content = some c :=
  ⟨by decide, by decide, by decide,
    write_then_read_round_trip Env.ok Env.ok fs_new path_a doc_old doc_unreadable
      (by decide) (by decide) (by decide)⟩

/-! ## Theorems: theme provider -/

/-- C10: when the requested variant differs from the current one,
`theme_manager_set_theme` makes it the current variant and changes nothing else; with a
callback registered it invokes that callback exactly once, with the new variant and the
registered user data, after the update; with none registered it invokes nothing. -/
theorem set_theme_updates_and_notifies (m : ThemeManager) (t : ThemeType)
    (hne : m.current_theme ≠ t) :
    (theme_manager_set_theme (some m) t).1 = some { m with current_theme := t }
    ∧ (∀ cb, m.callback = some cb →
        (theme_manager_set_theme (some m) t).2
          = [⟨cb, t, m.user_data, { m with current_theme := t }⟩])
    ∧ (m.callback = none → (theme_manager_set_theme (some m) t).2 = []) := by
  unfold theme_manager_set_theme
  simp only [hne, ne_eq, not_false_eq_true, if_true]
  cases hcb : m.callback <;> simp

/-- Witness for C10: a dark manager with a callback registered is set to the light
theme. -/
theorem set_theme_updates_and_notifies_witness :
    manager_dark.current_theme ≠ THEME_LIGHT
    ∧ (theme_manager_set_theme (some manager_dark) THEME_LIGHT).1
        = some { manager_dark with current_theme := THEME_LIGHT }
    ∧ (theme_manager_set_theme (some manager_dark) THEME_LIGHT).2
        = [⟨7, THEME_LIGHT, 42, { manager_dark with current_theme := THEME_LIGHT }⟩] :=
  ⟨by decide,
    (set_theme_updates_and_notifies manager_dark THEME_LIGHT (by decide)).1,
    (set_theme_updates_and_notifies manager_dark THEME_LIGHT (by decide)).2.1 7 rfl⟩

/-- C11: setting the variant that is already current is a no-op: the manager (current
variant, callback, user data) is unchanged and the callback is not invoked. -/
theorem set_theme_same_variant_noop (m : ThemeManager) (x : ThemeType)
    (hx : x = m.current_theme) :
    (theme_manager_set_theme (some m) x).1 = some m
    ∧ (theme_manager_set_theme (some m) x).2 = [] := by
  subst hx
  simp [theme_manager_set_theme]

/-- Witness for C11: a dark manager with a callback registered is set to dark. -/
theorem set_theme_same_variant_noop_witness :
    THEME_DARK = manager_dark.current_theme
    ∧ (theme_manager_set_theme (some manager_dark) THEME_DARK).1 = some manager_dark
    ∧ (theme_manager_set_theme (some manager_dark) THEME_DARK).2 = [] :=
  ⟨rfl, set_theme_same_variant_noop manager_dark THEME_DARK rfl⟩

/-- C12: toggling twice gives back the manager one started with: the first toggle keeps
callback and user data, and the second restores the variant, so that the whole state is
the original one. -/
theorem toggle_twice_restores (m : ThemeManager) :
    ∃ m1, (theme_manager_toggle (some m)).1 = some m1
      ∧ m1.callback = m.callback ∧ m1.user_data = m.user_data
      ∧ (theme_manager_toggle (some m1)).1 = some m := by
  obtain ⟨theme, cb, ud⟩ := m
  cases theme <;> cases cb <;> simp [theme_manager_toggle, theme_manager_set_theme]

/-- C13: `theme_manager_toggle` is `theme_manager_set_theme` applied to the other variant.
Afterwards the current variant is the other member of the two, never the one before, and
a registered callback has been invoked exactly once, with the new variant and the
registered user data. -/
theorem toggle_is_set_other_variant (m : ThemeManager) :
    theme_manager_toggle (some m) = toggle_spec m
    ∧ (theme_manager_toggle (some m)).1
        = some { m with current_theme := other_variant m.current_theme }
    ∧ other_variant m.current_theme ≠ m.current_theme
    ∧ (∀ cb, m.callback = some cb →
        (theme_manager_toggle (some m)).2
          = [⟨cb, other_variant m.current_theme, m.user_data,
              { m with current_theme := other_variant m.current_theme }⟩])
    ∧ (m.callback = none → (theme_manager_toggle (some m)).2 = []) := by
  obtain ⟨theme, cb, ud⟩ := m
  cases theme <;> cases cb <;>
    simp [theme_manager_toggle, toggle_spec, theme_manager_set_theme, other_variant]

/-- Witness for C13: a dark manager with callback 7 registered for user data 42 is
toggled. -/
theorem toggle_is_set_other_variant_witness :
    (theme_manager_toggle (some manager_dark)).1
        = some { manager_dark with current_theme := THEME_LIGHT }
    ∧ (theme_manager_toggle (some manager_dark)).2
        = [⟨7, THEME_LIGHT, 42, { manager_dark with current_theme := THEME_LIGHT }⟩] :=
  ⟨(toggle_is_set_other_variant manager_dark).2.1,
    (toggle_is_set_other_variant manager_dark).2.2.2.1 7 rfl⟩

/-- C14: last registration wins. Registering a callback twice changes neither the current
variant nor notifies anyone, and leaves the second callback and user data in the manager;
every invocation made by a later `theme_manager_set_theme` or `theme_manager_toggle` is an
invocation of the second callback with the second user data, hence never of a first
callback that differs from it, and a change of variant with a second callback present
invokes it exactly once. -/
theorem last_registration_wins (m : ThemeManager) (c1 c2 : Option Nat) (u1 u2 : Nat)
    (t : ThemeType) :
    (theme_manager_register_callback (some m) c1 u1).2 = []
    ∧ theme_manager_get_current (theme_manager_register_callback (some m) c1 u1).1
        = m.current_theme
    ∧ (registered_twice m c1 u1 c2 u2).2 = []
    ∧ (registered_twice m c1 u1 c2 u2).1
        = some { current_theme := m.current_theme, callback := c2, user_data := u2 }
    ∧ (∀ n ∈ (theme_manager_set_theme (registered_twice m c1 u1 c2 u2).1 t).2,
        some n.callback = c2 ∧ n.user_data = u2 ∧ (c1 ≠ c2 → some n.callback ≠ c1))
    ∧ (∀ n ∈ (theme_manager_toggle (registered_twice m c1 u1 c2 u2).1).2,
        some n.callback = c2 ∧ n.user_data = u2 ∧ (c1 ≠ c2 → some n.callback ≠ c1))
    ∧ (∀ cb, c2 = some cb → m.current_theme ≠ t →
        (theme_manager_set_theme (registered_twice m c1 u1 c2 u2).1 t).2
          = [⟨cb, t, u2, { current_theme := t, callback := some cb, user_data := u2 }⟩]) := by
  obtain ⟨theme, cb0, ud0⟩ := m
  refine ⟨rfl, rfl, rfl, rfl, ?_, ?_, ?_⟩
  · intro n hn
    cases c2 <;> cases theme <;> cases t <;>
      simp_all [registered_twice, theme_manager_register_callback, theme_manager_set_theme] <;>
      exact fun h e => h e.symm
  · intro n hn
    cases c2 <;> cases theme <;>
      simp_all [registered_twice, theme_manager_register_callback, theme_manager_toggle,
        theme_manager_set_theme] <;>
      exact fun h e => h e.symm
  · intro cb hcb hne
    subst hcb
    simp_all [registered_twice, theme_manager_register_callback, theme_manager_set_theme]

/-- Witness for C14: callback 1 with user data 10, then callback 2 with user data 20, are
registered with a light manager, which is then set to dark. -/
theorem last_registration_wins_witness :
    (registered_twice manager_light (some 1) 10 (some 2) 20).2 = []
    ∧ (theme_manager_set_theme (registered_twice manager_light (some 1) 10 (some 2) 20).1
        THEME_DARK).2
        = [⟨2, THEME_DARK, 20, ⟨THEME_DARK, some 2, 20⟩⟩] :=
  ⟨(last_registration_wins manager_light (some 1) (some 2) 10 20 THEME_DARK).2.2.1,
    (last_registration_wins manager_light (some 1) (some 2) 10 20 THEME_DARK).2.2.2.2.2.2
      2 rfl (by decide)⟩

/-- C15: the style payload is a function of the current variant alone. In the dark
variant `theme_manager_get_colors` gives the dark colors and `theme_manager_get_css` the
dark style sheet, in the light variant the light colors and the light style sheet; two
managers in the same variant give the same payload whatever their callback and user data
are. -/
theorem style_payload_by_variant (m : ThemeManager) :
    (m.current_theme = THEME_DARK →
      theme_manager_get_colors (some m)
        = { background := "#1e1e1e", foreground := "#d4d4d4", selection_bg := "#264f78",
            selection_fg := "#ffffff", cursor := "#aeafad" }
      ∧ theme_manager_get_css (some m) = dark_theme_css)
    ∧ (m.current_theme = THEME_LIGHT →
      theme_manager_get_colors (some m)
        = { background := "#ffffff", foreground := "#000000", selection_bg := "#add6ff",
            selection_fg := "#000000", cursor := "#000000" }
      ∧ theme_manager_get_css (some m) = light_theme_css)
    ∧ (∀ m2 : ThemeManager, m2.current_theme = m.current_theme →
      theme_manager_get_colors (some m2) = theme_manager_get_colors (some m)
      ∧ theme_manager_get_css (some m2) = theme_manager_get_css (some m)) := by
  refine ⟨fun h => ?_, fun h => ?_, fun m2 h => ?_⟩
  · simp [theme_manager_get_colors, theme_manager_get_css, h, dark_theme]
  · simp [theme_manager_get_colors, theme_manager_get_css, h, light_theme]
  · simp [theme_manager_get_colors, theme_manager_get_css, h]

/-- Witness for C15: a dark manager with a callback registered and a light manager with
none. -/
theorem style_payload_by_variant_witness :
    (theme_manager_get_colors (some manager_dark)
        = { background := "#1e1e1e", foreground := "#d4d4d4", selection_bg := "#264f78",
            selection_fg := "#ffffff", cursor := "#aeafad" }
      ∧ theme_manager_get_css (some manager_dark) = dark_theme_css)
    ∧ (theme_manager_get_colors (some manager_light)
        = { background := "#ffffff", foreground := "#000000", selection_bg := "#add6ff",
            selection_fg := "#000000", cursor := "#000000" }
      ∧ theme_manager_get_css (some manager_light) = light_theme_css) :=
  ⟨(style_payload_by_variant manager_dark).1 rfl,
    (style_payload_by_variant manager_light).2.1 rfl⟩

/-! ## Theorems: error messages and path predicates -/

/-- C16: `file_operations_get_error_message` is a total mapping: each of the seven result
codes has its own fixed message, and every other integer code, negative or greater than
6, gives "Unknown error". -/
theorem error_message_total :
    file_operations_get_error_message FILE_OP_SUCCESS.toInt = "Operation successful"
    ∧ file_operations_get_error_message FILE_OP_ERROR_OPEN.toInt = "Failed to open file"
    ∧ file_operations_get_error_message FILE_OP_ERROR_READ.toInt = "Failed to read file"
    ∧ file_operations_get_error_message FILE_OP_ERROR_WRITE.toInt = "Failed to write file"
    ∧ file_operations_get_error_message FILE_OP_ERROR_MEMORY.toInt
        = "Memory allocation failed"
    ∧ file_operations_get_error_message FILE_OP_ERROR_INVALID_PATH.toInt
        = "Invalid file path"
    ∧ file_operations_get_error_message FILE_OP_ERROR_PERMISSION.toInt = "Permission denied"
    ∧ (∀ r : Int, (r < 0 ∨ 6 < r) → file_operations_get_error_message r = "Unknown error") := by
  refine ⟨by decide, by decide, by decide, by decide, by decide, by decide, by decide, ?_⟩
  intro r hr
  unfold file_operations_get_error_message
  have hlen : (error_messages.length : Int) = 7 := by decide
  rw [hlen, if_neg (by omega)]

/-- Witness for C16: the codes `-1` and `7`, on either side of the table. -/
theorem error_message_total_witness :
    file_operations_get_error_message (-1) = "Unknown error"
    ∧ file_operations_get_error_message 7 = "Unknown error" :=
  ⟨error_message_total.2.2.2.2.2.2.2 (-1) (Or.inl (by decide)),
    error_message_total.2.2.2.2.2.2.2 7 (Or.inr (by decide))⟩

/-- C17 (failing input): only the root directory exists and it is writable. For the
missing path `"/name"`, whose parent directory is the root, the code cuts the path at its
last `'/'`, asks `access` about the empty string that is left, and answers false. -/
theorem is_writable_under_root_is_false :
    file_operations_exists env_root_writable (some path_slash_name) = false
    ∧ parent_directory path_slash_name = path_root
    ∧ access env_root_writable path_root W_OK = true
    ∧ strrchr path_slash_name.val slash = some 0
    ∧ (path_slash_name.truncate 0).val = []
    ∧ file_operations_is_writable env_root_writable (some path_slash_name) = false := by
  decide

/-- For a missing path, `file_operations_is_writable` answers true only when the parent
directory is writable; and when the copy of the path is allocated and the last `'/'` is
not the first character of the path, it answers true exactly when the parent directory is
writable. -/
theorem is_writable_missing_path (env : PathEnv) (p : CStr)
    (hmiss : file_operations_exists env (some p) = false) :
    (file_operations_is_writable env (some p) = true →
      access env (parent_directory p) W_OK = true)
    ∧ (env.strdup_fails = false → strrchr p.val slash ≠ some 0 →
      file_operations_is_writable env (some p) = access env (parent_directory p) W_OK) := by
  unfold file_operations_is_writable parent_directory
  simp only [hmiss, Bool.false_eq_true, if_false]
  cases hs : env.strdup_fails <;> rcases hr : strrchr p.val slash with _ | i
  · simp
  · cases i with
    | zero => simp [access, CStr.truncate]
    | succ j => simp
  · simp
  · simp

/-! ## Theorems: clipboard -/

/-- C18 (counterexample): `"new"` is copied into a clipboard holding `"old"` and the copy
returns true; the following paste cannot allocate its copy of the text and returns
`NULL`, not `"new"`. -/
theorem paste_after_copy_can_return_null :
    (clipboard_operations_copy false (some clipboard_old) (some text_new)).1 = true
    ∧ (clipboard_operations_paste true
        (clipboard_operations_copy false (some clipboard_old) (some text_new)).2.1).1
        = none := by
  decide

/-- C18 (amended): the clipboard holds the last-copied text. When
`clipboard_operations_copy` of a present text returns true, whatever was stored before, a
following `clipboard_operations_paste` returns that text, or `NULL` when its own copy of
the text is not allocated; either way it leaves the clipboard as the copy left it, and a
second paste again returns that text, or `NULL` when its copy is not allocated. -/
theorem copy_then_paste (strdup_fails : Bool) (clipboard : Option ClipboardOperations)
    (t : CStr) (first_fails second_fails : Bool)
    (hok : (clipboard_operations_copy strdup_fails clipboard (some t)).1 = true) :
    (clipboard_operations_paste first_fails
        (clipboard_operations_copy strdup_fails clipboard (some t)).2.1).1
        = (if first_fails then none else some t)
    ∧ (clipboard_operations_paste first_fails
        (clipboard_operations_copy strdup_fails clipboard (some t)).2.1).2
        = (clipboard_operations_copy strdup_fails clipboard (some t)).2.1
    ∧ (clipboard_operations_paste second_fails (clipboard_operations_paste first_fails
        (clipboard_operations_copy strdup_fails clipboard (some t)).2.1).2).1
        = (if second_fails then none else some t) := by
  rcases clipboard with _ | ⟨buffer, cb, ud⟩
  · simp [clipboard_operations_copy] at hok
  · cases strdup_fails
    · cases cb <;> simp [clipboard_operations_copy, clipboard_operations_paste]
    · simp [clipboard_operations_copy] at hok

/-- Witness for C18 (amended): `"new"` is copied into a clipboard that holds `"old"`; the
first paste fails to allocate, the second returns `"new"`. -/
theorem copy_then_paste_witness :
    (clipboard_operations_copy false (some clipboard_old) (some text_new)).1 = true
    ∧ (clipboard_operations_paste true
        (clipboard_operations_copy false (some clipboard_old) (some text_new)).2.1).1
        = none
    ∧ (clipboard_operations_paste false (clipboard_operations_paste true
        (clipboard_operations_copy false (some clipboard_old) (some text_new)).2.1).2).1
        = some text_new :=
  ⟨by decide,
    (copy_then_paste false (some clipboard_old) text_new true false (by decide)).1,
    (copy_then_paste false (some clipboard_old) text_new true false (by decide)).2.2⟩

/-- C19 (counterexample): the empty string is copied into a new clipboard and the copy
returns true. Then `clipboard_operations_has_text` reports false, yet
`clipboard_operations_paste`, its copy allocated, returns the empty text, not `NULL`.
And on a clipboard holding `"old"`, where `clipboard_operations_has_text` reports true, a
paste whose copy is not allocated returns `NULL`. -/
theorem paste_after_copy_of_empty_text :
    (clipboard_operations_copy false (some clipboard_new) (some text_empty)).1 = true
    ∧ clipboard_operations_has_text
        (clipboard_operations_copy false (some clipboard_new) (some text_empty)).2.1 = false
    ∧ (clipboard_operations_paste false
        (clipboard_operations_copy false (some clipboard_new) (some text_empty)).2.1).1
        = some text_empty
    ∧ clipboard_operations_has_text (some clipboard_old) = true
    ∧ (clipboard_operations_paste true (some clipboard_old)).1 = none := by
  decide

/-- C19 (amended): `clipboard_operations_paste` returns `NULL` exactly when no text is
stored (the clipboard is absent or its buffer is `NULL`) or its copy of the stored text is
not allocated, and otherwise a copy of the stored text;
`clipboard_operations_has_text` reports true exactly when a text is stored and is not
empty. So whenever it reports true, paste returns a copy of the stored text unless the
copy is not allocated. -/
theorem paste_and_has_text (strdup_fails : Bool) (clipboard : Option ClipboardOperations) :
    ((clipboard_operations_paste strdup_fails clipboard).1 = none ↔
      (clipboard = none ∨ (∃ c, clipboard = some c ∧ c.buffer = none)
        ∨ strdup_fails = true))
    ∧ (∀ c text, clipboard = some c → c.buffer = some text → strdup_fails = false →
      (clipboard_operations_paste strdup_fails clipboard).1 = some text)
    ∧ (clipboard_operations_has_text clipboard = true ↔
      ∃ c text, clipboard = some c ∧ c.buffer = some text ∧ text.val ≠ [])
    ∧ (clipboard_operations_has_text clipboard = true →
      ∃ c text, clipboard = some c ∧ c.buffer = some text
        ∧ (clipboard_operations_paste strdup_fails clipboard).1
          = (if strdup_fails then none else some text)) := by
  have hhas : ∀ c : ClipboardOperations, clipboard_operations_has_text (some c) = true ↔
      ∃ text, c.buffer = some text ∧ text.val ≠ [] := by
    rintro ⟨buffer, cb, ud⟩
    rcases buffer with _ | ⟨bytes, hb⟩
    · simp [clipboard_operations_has_text]
    · cases bytes with
      | nil => simp [clipboard_operations_has_text, CStr.byteAt]
      | cons b rest =>
        have hb0 : b ≠ 0 := fun e => hb (by simp [e])
        simp [clipboard_operations_has_text, CStr.byteAt, hb0]
  have hpaste : ∀ (c : ClipboardOperations) (text : CStr), c.buffer = some text →
      (clipboard_operations_paste strdup_fails (some c)).1
        = (if strdup_fails then none else some text) := by
    rintro ⟨buffer, cb, ud⟩ text h
    simp only at h
    subst h
    rfl
  rcases clipboard with _ | c
  · simp [clipboard_operations_paste, clipboard_operations_has_text]
  · refine ⟨?_, ?_, ?_, ?_⟩
    · rcases hb : c.buffer with _ | text
      · obtain ⟨buffer, cb, ud⟩ := c
        simp only at hb
        subst hb
        simp [clipboard_operations_paste]
      · rw [hpaste c text hb]
        cases strdup_fails <;> simp [hb]
    · rintro c0 text h0 hbuf hsf
      cases h0
      rw [hpaste c text hbuf, hsf]
      rfl
    · rw [hhas]
      constructor
      · rintro ⟨text, h1, h2⟩
        exact ⟨c, text, rfl, h1, h2⟩
      · rintro ⟨c0, text, h0, h1, h2⟩
        cases h0
        exact ⟨text, h1, h2⟩
    · intro h
      obtain ⟨text, h1, _⟩ := (hhas c).mp h
      exact ⟨c, text, rfl, h1, hpaste c text h1⟩

/-- Witness for C19 (amended): a clipboard holding `"old"` has text, and a paste whose copy
is allocated returns it. -/
theorem paste_and_has_text_witness :
    clipboard_operations_has_text (some clipboard_old) = true
    ∧ (clipboard_operations_paste false (some clipboard_old)).1 = some text_old :=
  ⟨by decide,
    (paste_and_has_text false (some clipboard_old)).2.1 clipboard_old text_old rfl rfl rfl⟩

/-! ## Theorems: the theme observer -/

/-- C20: in every invocation of the theme-change callback made by
`theme_manager_set_theme` or `theme_manager_toggle`, the manager the callee finds is the
manager after the call, already in the variant passed to the callback and no longer in
the old one; `theme_manager_get_current`, `theme_manager_get_colors` and
`theme_manager_get_css` called from inside the notification answer for the new variant,
and so does the window's `on_theme_changed`. -/
theorem callback_sees_new_theme (m : ThemeManager) (t : ThemeType) :
    (∀ n ∈ (theme_manager_set_theme (some m) t).2,
      n.theme = t ∧ some n.seen = (theme_manager_set_theme (some m) t).1
      ∧ n.seen.current_theme ≠ m.current_theme
      ∧ theme_manager_get_current (some n.seen) = n.theme
      ∧ theme_manager_get_colors (some n.seen)
          = (if n.theme = THEME_DARK then dark_theme else light_theme)
      ∧ theme_manager_get_css (some n.seen)
          = (if n.theme = THEME_DARK then dark_theme_css else light_theme_css)
      ∧ on_theme_changed n.theme n.seen
          = { css := if n.theme = THEME_DARK then dark_theme_css else light_theme_css,
              scheme_name := if n.theme = THEME_DARK then "notebook-dark"
                else "notebook-light" })
    ∧ (∀ n ∈ (theme_manager_toggle (some m)).2,
      n.theme = other_variant m.current_theme
      ∧ some n.seen = (theme_manager_toggle (some m)).1
      ∧ n.seen.current_theme ≠ m.current_theme
      ∧ theme_manager_get_current (some n.seen) = n.theme
      ∧ theme_manager_get_colors (some n.seen)
          = (if n.theme = THEME_DARK then dark_theme else light_theme)
      ∧ theme_manager_get_css (some n.seen)
          = (if n.theme = THEME_DARK then dark_theme_css else light_theme_css)
      ∧ on_theme_changed n.theme n.seen
          = { css := if n.theme = THEME_DARK then dark_theme_css else light_theme_css,
              scheme_name := if n.theme = THEME_DARK then "notebook-dark"
                else "notebook-light" }) := by
  obtain ⟨theme, cb, ud⟩ := m
  constructor
  · intro n hn
    cases cb <;> cases theme <;> cases t <;>
      simp_all [theme_manager_set_theme, theme_manager_get_current, theme_manager_get_colors,
        theme_manager_get_css, on_theme_changed, main_window_apply_theme]
  · intro n hn
    cases cb <;> cases theme <;>
      simp_all [theme_manager_toggle, theme_manager_set_theme, theme_manager_get_current,
        theme_manager_get_colors, theme_manager_get_css, on_theme_changed,
        main_window_apply_theme, other_variant]

/-- Witness for C20: a dark manager with callback 7 registered is toggled; the one
invocation made finds the manager in the light variant and the window applies the light
theme. -/
theorem callback_sees_new_theme_witness :
    (theme_manager_toggle (some manager_dark)).2
        = [⟨7, THEME_LIGHT, 42, { manager_dark with current_theme := THEME_LIGHT }⟩]
    ∧ on_theme_changed THEME_LIGHT { manager_dark with current_theme := THEME_LIGHT }
        = { css := light_theme_css, scheme_name := "notebook-light" } :=
  ⟨by decide,
    ((callback_sees_new_theme manager_dark THEME_LIGHT).2
      ⟨7, THEME_LIGHT, 42, { manager_dark with current_theme := THEME_LIGHT }⟩
      (by decide)).2.2.2.2.2.2⟩

/-! ## Theorems: window title -/

/-- A byte that does not occur is not found by `strrchr`. -/
theorem strrchr_of_not_mem (l : List Byte) (c : Byte) (h : c ∉ l) : strrchr l c = none := by
  induction l with
  | nil => rfl
  | cons b rest ih =>
    have hb : b ≠ c := fun e => h (by simp [e])
    have hr : c ∉ rest := fun e => h (by simp [e])
    simp [strrchr, ih hr, hb]

/-- An occurrence of a byte that is followed by no further occurrence is the one `strrchr`
finds. -/
theorem strrchr_append_last (a b : List Byte) (c : Byte) (h : c ∉ b) :
    strrchr (a ++ c :: b) c = some a.length := by
  induction a with
  | nil => simp [strrchr, strrchr_of_not_mem b c h]
  | cons x rest ih => simp [strrchr, ih]

/-- C21: for a present window, `main_window_update_title` sets the title to
"Notebook - ", the file name and, exactly when the flag is set, " *", cut to at most 511
bytes; the file name is "Untitled" for an absent path, the path itself when it holds no
`'/'`, and the part behind the last `'/'` otherwise. -/
theorem update_title_sets_title (w : MainWindow) (m : Bool) :
    (∃ w1, main_window_update_title (some w) none m = some w1
      ∧ w1.title.val
        = (ascii "Notebook - " ++ ascii "Untitled" ++ (if m then ascii " *" else [])).take 511)
    ∧ (∀ q : CStr, slash ∉ q.val →
      ∃ w1, main_window_update_title (some w) (some q) m = some w1
        ∧ w1.title.val
          = (ascii "Notebook - " ++ q.val ++ (if m then ascii " *" else [])).take 511)
    ∧ (∀ (q : CStr) (a b : List Byte), q.val = a ++ slash :: b → slash ∉ b →
      ∃ w1, main_window_update_title (some w) (some q) m = some w1
        ∧ w1.title.val
          = (ascii "Notebook - " ++ b ++ (if m then ascii " *" else [])).take 511)
    ∧ (∀ p w1, main_window_update_title (some w) p m = some w1 → w1.title.val.length ≤ 511) := by
  refine ⟨?_, ?_, ?_, ?_⟩
  · cases m <;>
      exact ⟨_, rfl, by simp [snprintf_s, str_notebook, str_untitled, str_star]⟩
  · intro q hq
    have hs := strrchr_of_not_mem q.val slash hq
    cases m <;>
      exact ⟨_, rfl, by simp [hs, snprintf_s, str_notebook, str_star]⟩
  · intro q a b hq hb
    have hs : strrchr q.val slash = some a.length := by
      rw [hq]
      exact strrchr_append_last a b slash hb
    have hd : (q.drop (a.length + 1)).val = b := by
      simp [CStr.drop, hq]
    cases m <;>
      exact ⟨_, rfl, by simp [hs, hd, snprintf_s, str_notebook, str_star]⟩
  · intro p w1 h
    simp only [main_window_update_title, Option.some.injEq] at h
    subst h
    cases m <;> simp [snprintf_s, List.length_take]

/-- Witness for C21: the path `"/tmp/x.txt"` with the flag set gives the title
`"Notebook - x.txt *"`. -/
theorem update_title_sets_title_witness :
    path_tmp_x.val = ascii "/tmp" ++ slash :: ascii "x.txt"
    ∧ slash ∉ ascii "x.txt"
    ∧ ∃ w1, main_window_update_title (some window_old) (some path_tmp_x) true = some w1
      ∧ w1.title.val = ascii "Notebook - x.txt *" :=
  ⟨by decide, by decide,
    by
      obtain ⟨w1, h1, h2⟩ := (update_title_sets_title window_old true).2.2.1 path_tmp_x
        (ascii "/tmp") (ascii "x.txt") (by decide) (by decide)
      exact ⟨w1, h1, h2.trans (by decide)⟩⟩

/-! ## Theorems: failed copy -/

/-- C22: a failed `clipboard_operations_copy` is atomic. When it returns false, the
clipboard or the text was absent or the copy of the text was not allocated; the clipboard
is the one before the call, so that `clipboard_operations_paste` (whatever the outcome
of its own allocation) and `clipboard_operations_has_text` answer as they did before, and
no callback was invoked. -/
theorem failed_copy_is_atomic (strdup_fails : Bool) (clipboard : Option ClipboardOperations)
    (text : Option CStr)
    (hfail : (clipboard_operations_copy strdup_fails clipboard text).1 = false) :
    (clipboard = none ∨ text = none ∨ strdup_fails = true)
    ∧ (clipboard_operations_copy strdup_fails clipboard text).2.1 = clipboard
    ∧ (clipboard_operations_copy strdup_fails clipboard text).2.2 = []
    ∧ (∀ paste_fails,
        clipboard_operations_paste paste_fails
            (clipboard_operations_copy strdup_fails clipboard text).2.1
          = clipboard_operations_paste paste_fails clipboard)
    ∧ clipboard_operations_has_text
        (clipboard_operations_copy strdup_fails clipboard text).2.1
        = clipboard_operations_has_text clipboard := by
  rcases clipboard with _ | ⟨buffer, cb, ud⟩
  · simp [clipboard_operations_copy]
  · rcases text with _ | t
    · simp [clipboard_operations_copy]
    · cases strdup_fails
      · cases cb <;> simp [clipboard_operations_copy] at hfail
      · simp [clipboard_operations_copy]

/-- Witness for C22: the copy of `"new"` into a clipboard holding `"old"` cannot be
allocated; the clipboard still pastes `"old"` and its callback was not invoked. -/
theorem failed_copy_is_atomic_witness :
    (clipboard_operations_copy true (some clipboard_old) (some text_new)).1 = false
    ∧ (clipboard_operations_copy true (some clipboard_old) (some text_new)).2.2 = []
    ∧ (clipboard_operations_paste false
        (clipboard_operations_copy true (some clipboard_old) (some text_new)).2.1).1
        = some text_old :=
  ⟨by decide,
    (failed_copy_is_atomic true (some clipboard_old) (some text_new) (by decide)).2.2.1,
    (congrArg Prod.fst
      ((failed_copy_is_atomic true (some clipboard_old) (some text_new)
        (by decide)).2.2.2.1 false)).trans (by decide)⟩

/-! ## Theorems: style sheet and color payload -/

set_option maxRecDepth 100000 in
/-- The dark style sheet carries the dark colors. -/
theorem dark_css_carries_dark_colors :
    starts_with (textview_rule_opening dark_theme).toList dark_theme_css.toList = true
    ∧ css_holds dark_theme_css (selection_rule dark_theme) = true
    ∧ css_holds dark_theme_css (caret_declaration dark_theme) = true
    ∧ css_holds dark_theme_css dark_theme.background = true
    ∧ css_holds dark_theme_css dark_theme.foreground = true
    ∧ css_holds dark_theme_css dark_theme.selection_bg = true
    ∧ css_holds dark_theme_css dark_theme.selection_fg = true
    ∧ css_holds dark_theme_css dark_theme.cursor = true := by
  decide

set_option maxRecDepth 100000 in
/-- The light style sheet carries the light colors. -/
theorem light_css_carries_light_colors :
    starts_with (textview_rule_opening light_theme).toList light_theme_css.toList = true
    ∧ css_holds light_theme_css (selection_rule light_theme) = true
    ∧ css_holds light_theme_css (caret_declaration light_theme) = true
    ∧ css_holds light_theme_css light_theme.background = true
    ∧ css_holds light_theme_css light_theme.foreground = true
    ∧ css_holds light_theme_css light_theme.selection_bg = true
    ∧ css_holds light_theme_css light_theme.selection_fg = true
    ∧ css_holds light_theme_css light_theme.cursor = true := by
  decide

/-- C23: in either variant, the style sheet `theme_manager_get_css` returns agrees with
the colors `theme_manager_get_colors` returns. The sheet opens with the `textview` rule
whose `background-color` is the background and whose `color` is the foreground, holds the
selection rule with the two selection colors and holds the cursor color as the
`caret-color`; each of the five color strings occurs in it. -/
theorem css_agrees_with_colors (m : ThemeManager) :
    starts_with (textview_rule_opening (theme_manager_get_colors (some m))).toList
        (theme_manager_get_css (some m)).toList = true
    ∧ css_holds (theme_manager_get_css (some m))
        (selection_rule (theme_manager_get_colors (some m))) = true
    ∧ css_holds (theme_manager_get_css (some m))
        (caret_declaration (theme_manager_get_colors (some m))) = true
    ∧ css_holds (theme_manager_get_css (some m))
        (theme_manager_get_colors (some m)).background = true
    ∧ css_holds (theme_manager_get_css (some m))
        (theme_manager_get_colors (some m)).foreground = true
    ∧ css_holds (theme_manager_get_css (some m))
        (theme_manager_get_colors (some m)).selection_bg = true
    ∧ css_holds (theme_manager_get_css (some m))
        (theme_manager_get_colors (some m)).selection_fg = true
    ∧ css_holds (theme_manager_get_css (some m))
        (theme_manager_get_colors (some m)).cursor = true := by
  obtain ⟨theme, cb, ud⟩ := m
  cases theme
  · simpa [theme_manager_get_css, theme_manager_get_colors] using dark_css_carries_dark_colors
  · simpa [theme_manager_get_css, theme_manager_get_colors] using light_css_carries_light_colors

end Notebook
